import Mathlib

/-
Verification development for the iTunesDB binary parser
(`src/parser/src/parsers/itunesdb_parser.rs`).

The byte buffer is a `List Nat` (each entry one byte).  Fallible reads
return `Except ParseErr`; a Rust `panic!` / `expect` / debug-mode usize
underflow is an `Except.error`.  Strings decoded from the buffer are
represented as their lists of UTF-16 code units (`List Nat`); strings
built by the program itself from literals (device names, generations)
are Lean `String`s.

The repository ships only the parser file and an image-oriented
constants file under `src/`; the numeric field-offset constants, the
`helpers` module and the `itunesdb` module (Song/Podcast structures and
the small decode functions) are referenced by the parser but their
sources are not in the repository snapshot.  Those parts are modelled
from the spec; each such definition carries a doc comment saying so.
-/

namespace ItunesDb

/-- Error taxonomy of the parse (spec section 7 plus the two panics the
parser source itself contains: the zero-size track panic and the
debug-mode usize underflow of `len - DEFAULT_SUBSTRUCTURE_SIZE`). -/
inductive ParseErr where
  | outOfBounds
  | invalidEncoding
  | invalidTrack
  | usizeUnderflow
deriving DecidableEq, Repr

/-- Checked byte-range read: the bytes `[off, off+len)` of the buffer.
Fails like a Rust slice index `&buf[off..off+len]` when the range
exceeds the buffer. -/
def slice (buf : List Nat) (off len : Nat) : Except ParseErr (List Nat) :=
  if off + len ≤ buf.length then .ok ((buf.drop off).take len) else .error .outOfBounds

/-- Modelled from the spec: `helpers::build_le_u32_from_bytes`,
little-endian byte-list to unsigned integer. -/
def build_le_u32_from_bytes (bs : List Nat) : Nat :=
  bs.foldr (fun b acc => b + 256 * acc) 0

/-- Modelled from the spec: `helpers::get_slice_from_offset_with_len`
(`read_bytes` of spec section 4.1), failing with OutOfBounds when the
range exceeds the buffer. -/
def get_slice_from_offset_with_len (idx : Nat) (buf : List Nat) (off len : Nat) :
    Except ParseErr (List Nat) :=
  slice buf (idx + off) len

/-- Modelled from the spec: `helpers::get_slice_as_le_u32` (`read_uint`
of spec section 4.1), little-endian unsigned read. -/
def get_slice_as_le_u32 (idx : Nat) (buf : List Nat) (off len : Nat) :
    Except ParseErr Nat :=
  (get_slice_from_offset_with_len idx buf off len).map build_le_u32_from_bytes

/-- Modelled from the spec: `helpers::get_slice_as_le_u64`, same as
`get_slice_as_le_u32` but for a wider field. -/
def get_slice_as_le_u64 (idx : Nat) (buf : List Nat) (off len : Nat) :
    Except ParseErr Nat :=
  (get_slice_from_offset_with_len idx buf off len).map build_le_u32_from_bytes

/-- Modelled from the spec: `helpers::get_slice_as_mac_timestamp`
(spec section 4.1 `read_mac_timestamp`): 4-byte seconds since 1904,
shifted by 2,082,844,800 to the Unix epoch. -/
def get_slice_as_mac_timestamp (idx : Nat) (buf : List Nat) (off len : Nat) :
    Except ParseErr Int :=
  (get_slice_as_le_u32 idx buf off len).map (fun v => (v : Int) - 2082844800)

/-- Modelled from the spec: `std::str::from_utf8(..).expect(..)` on the
two-byte language code; the model accepts plain ASCII and aborts the
parse otherwise. -/
def utf8_check (bs : List Nat) : Except ParseErr (List Nat) :=
  if bs.all (fun b => b < 128) then .ok bs else .error .invalidEncoding

/-- Modelled from the spec: `helpers::return_utf16_from_utf8` pairs the
payload bytes into little-endian UTF-16 code units. -/
def return_utf16_from_utf8 : List Nat → List Nat
  | b0 :: b1 :: rest => (b0 + 256 * b1) :: return_utf16_from_utf8 rest
  | _ => []

/-- Modelled from the spec: `String::from_utf16(..).expect(..)`
(spec section 4.1 `read_utf16_string`, failing with InvalidEncoding on
unpaired surrogates).  The decoded string is kept as its code-unit
list; code units in the surrogate range are rejected (the claims only
exercise ASCII payloads, where this coincides with the source). -/
def string_from_utf16 (units : List Nat) : Except ParseErr (List Nat) :=
  if units.all (fun u => u < 55296 ∨ 57344 ≤ u) then .ok units else .error .invalidEncoding

/-- ASCII code units of a literal, used both for the 4-byte record
markers and for expected payload values in concrete runs. -/
def keyCodes (s : String) : List Nat := s.toList.map Char.toNat

namespace itunesdb_constants

/-! Record markers (spec section 4.2 lists all eight) and field layout
constants.  `SUBSTRUCTURE_SIZE = 4` comes from the constants file under
`src/`; the marker strings come from the spec.  The numeric field
offsets of the fixed-layout records are not in the repository snapshot:
they are modelled from the spec (section 4.3 fixes which fields exist,
with additive offsets from the record base and fixed widths) with
representative non-overlapping values.  The data-object string layout
(type at 12, length at 24, payload at 32) comes from the constants file
under `src/`. -/

def DEFAULT_SUBSTRUCTURE_SIZE : Nat := 4

def DATABASE_OBJECT_KEY : String := "mhbd"
def DATASET_KEY : String := "mhsd"
def TRACKLIST_KEY : String := "mhlt"
def TRACK_ITEM_KEY : String := "mhit"
def PLAYLIST_KEY : String := "mhyp"
def PLAYLIST_ITEM_KEY : String := "mhip"
def ALBUM_LIST_KEY : String := "mhla"
def DATA_OBJECT_KEY : String := "mhod"

def DATABASE_OBJECT_LANGUAGE_OFFSET : Nat := 8
def DATABASE_OBJECT_LANGUAGE_LEN : Nat := 2
def DATABASE_OBJECT_VERSION_NUMBER_OFFSET : Nat := 16
def DATABASE_OBJECT_VERSION_NUMBER_LEN : Nat := 4
def DATABASE_OBJECT_LAST_OFFSET : Nat := 20

def DATASET_TYPE_OFFSET : Nat := 12
def DATASET_TYPE_LEN : Nat := 4
def DATASET_LAST_OFFSET : Nat := 16

def TRACKLIST_NUM_SONGS_OFFSET : Nat := 8
def TRACKLIST_NUM_SONGS_LEN : Nat := 4
def TRACKLIST_LAST_OFFSET : Nat := 12

def TRACK_ITEM_TRACK_NUMBER_OFFSET : Nat := 8
def TRACK_ITEM_TRACK_NUMBER_LEN : Nat := 4
def TRACK_ITEM_NUM_TRACKS_IN_ALBUM_OFFSET : Nat := 12
def TRACK_ITEM_NUM_TRACKS_IN_ALBUM_LEN : Nat := 4
def TRACK_ITEM_TRACK_TOTAL_NUM_DISCS_OFFSET : Nat := 16
def TRACK_ITEM_TRACK_TOTAL_NUM_DISCS_LEN : Nat := 4
def TRACK_ITEM_TRACK_DISC_NUMBER_OFFSET : Nat := 20
def TRACK_ITEM_TRACK_DISC_NUMBER_LEN : Nat := 4
def TRACK_ITEM_TRACK_FILETYPE_OFFSET : Nat := 24
def TRACK_ITEM_TRACK_FILETYPE_LEN : Nat := 4
def TRACK_ITEM_TRACK_MEDIA_TYPE_OFFSET : Nat := 28
def TRACK_ITEM_TRACK_MEDIA_TYPE_LEN : Nat := 4
def TRACK_ITEM_TRACK_MOVIE_FLAG_SETTING_OFFSET : Nat := 32
def TRACK_ITEM_TRACK_MOVIE_FLAG_SETTING_LEN : Nat := 4
def TRACK_ITEM_TRACK_SEASON_NUMBER_OFFSET : Nat := 36
def TRACK_ITEM_TRACK_SEASON_NUMBER_LEN : Nat := 4
def TRACK_ITEM_TRACK_EPISODE_NUMBER_OFFSET : Nat := 40
def TRACK_ITEM_TRACK_EPISODE_NUMBER_LEN : Nat := 4
def TRACK_ITEM_ADVANCED_TRACK_TYPE_OFFSET : Nat := 44
def TRACK_ITEM_ADVANCED_TRACK_TYPE_LEN : Nat := 4
def TRACK_ITEM_TRACK_USER_ID_OFFSET : Nat := 48
def TRACK_ITEM_TRACK_USER_ID_LEN : Nat := 4
def TRACK_ITEM_TRACK_BITRATE_SETTING_OFFSET : Nat := 52
def TRACK_ITEM_TRACK_BITRATE_SETTING_LEN : Nat := 4
def TRACK_ITEM_TRACK_BITRATE_OFFSET : Nat := 56
def TRACK_ITEM_TRACK_BITRATE_LEN : Nat := 4
def TRACK_ITEM_TRACK_SAMPLE_RATE_OFFSET : Nat := 60
def TRACK_ITEM_TRACK_SAMPLE_RATE_LEN : Nat := 4
def TRACK_ITEM_TRACK_VOLUME_OFFSET : Nat := 64
def TRACK_ITEM_TRACK_VOLUME_LEN : Nat := 4
def TRACK_ITEM_TRACK_BPM_OFFSET : Nat := 68
def TRACK_ITEM_TRACK_BPM_LEN : Nat := 4
def TRACK_ITEM_TRACK_FILE_SIZE_BYTES_OFFSET : Nat := 72
def TRACK_ITEM_TRACK_FILE_SIZE_BYTES_LEN : Nat := 4
def TRACK_ITEM_TRACK_LENGTH_MILLISECONDS_OFFSET : Nat := 76
def TRACK_ITEM_TRACK_LENGTH_MILLISECONDS_LEN : Nat := 4
def TRACK_ITEM_TRACK_START_TIME_OFFSET : Nat := 80
def TRACK_ITEM_TRACK_START_TIME_LEN : Nat := 4
def TRACK_ITEM_TRACK_STOP_TIME_OFFSET : Nat := 84
def TRACK_ITEM_TRACK_STOP_TIME_LEN : Nat := 4
def TRACK_ITEM_TRACK_PLAY_COUNT_OFFSET : Nat := 88
def TRACK_ITEM_TRACK_PLAY_COUNT_LEN : Nat := 4
def TRACK_ITEM_TRACK_SKIPPED_COUNT_OFFSET : Nat := 92
def TRACK_ITEM_TRACK_SKIPPED_COUNT_LEN : Nat := 4
def TRACK_ITEM_TRACK_LAST_PLAYED_TIMESTAMP_OFFSET : Nat := 96
def TRACK_ITEM_TRACK_LAST_PLAYED_TIMESTAMP_LEN : Nat := 4
def TRACK_ITEM_TRACK_LAST_SKIPPED_TIMESTAMP_OFFSET : Nat := 100
def TRACK_ITEM_TRACK_LAST_SKIPPED_TIMESTAMP_LEN : Nat := 4
def TRACK_ITEM_TRACK_SKIP_WHEN_SHUFFLING_SETTING_OFFSET : Nat := 104
def TRACK_ITEM_TRACK_SKIP_WHEN_SHUFFLING_SETTING_LEN : Nat := 1
def TRACK_ITEM_IS_COMPILATION_SETTING_OFFSET : Nat := 108
def TRACK_ITEM_IS_COMPILATION_SETTING_LEN : Nat := 1
def TRACK_ITEM_TRACK_LYRICS_AVAILABLE_SETTING_OFFSET : Nat := 112
def TRACK_ITEM_TRACK_LYRICS_AVAILABLE_SETTING_LEN : Nat := 1
def TRACK_ITEM_TRACK_RATING_OFFSET : Nat := 116
def TRACK_ITEM_TRACK_RATING_LEN : Nat := 4
def TRACK_ITEM_TRACK_PREVIOUS_RATING_OFFSET : Nat := 120
def TRACK_ITEM_TRACK_PREVIOUS_RATING_LEN : Nat := 4
def TRACK_ITEM_TRACK_GAPLESS_PLAYBACK_SETTING_OFFSET : Nat := 124
def TRACK_ITEM_TRACK_GAPLESS_PLAYBACK_SETTING_LEN : Nat := 4
def TRACK_ITEM_TRACK_BEGINNING_SILENCE_SAMPLE_COUNT_OFFSET : Nat := 128
def TRACK_ITEM_TRACK_BEGINNING_SILENCE_SAMPLE_COUNT_LEN : Nat := 4
def TRACK_ITEM_TRACK_ENDING_SILENCE_SAMPLE_COUNT_OFFSET : Nat := 132
def TRACK_ITEM_TRACK_ENDING_SILENCE_SAMPLE_COUNT_LEN : Nat := 4
def TRACK_ITEM_TRACK_NUM_SAMPLES_OFFSET : Nat := 136
def TRACK_ITEM_TRACK_NUM_SAMPLES_LEN : Nat := 8
def TRACK_ITEM_TRACK_CROSSFADING_SETTING_OFFSET : Nat := 144
def TRACK_ITEM_TRACK_CROSSFADING_SETTING_LEN : Nat := 4
def TRACK_ITEM_TRACK_HAS_ARTWORK_SETTING_OFFSET : Nat := 148
def TRACK_ITEM_TRACK_HAS_ARTWORK_SETTING_LEN : Nat := 1
def TRACK_ITEM_TRACK_ARTWORK_SIZE_BYTES_OFFSET : Nat := 152
def TRACK_ITEM_TRACK_ARTWORK_SIZE_BYTES_LEN : Nat := 4
def TRACK_ITEM_TRACK_YEAR_PUBLISHED_OFFSET : Nat := 156
def TRACK_ITEM_TRACK_YEAR_PUBLISHED_LEN : Nat := 4
def TRACK_ITEM_TRACK_ADDED_TIMESTAMP_OFFSET : Nat := 160
def TRACK_ITEM_TRACK_ADDED_TIMESTAMP_LEN : Nat := 4
def TRACK_ITEM_TRACK_MODIFIED_TIME_OFFSET : Nat := 164
def TRACK_ITEM_TRACK_MODIFIED_TIME_LEN : Nat := 4
def TRACK_ITEM_TRACK_RELEASED_TIMESTAMP_OFFSET : Nat := 168
def TRACK_ITEM_TRACK_RELEASED_TIMESTAMP_LEN : Nat := 4
def TRACK_ITEM_LAST_OFFSET : Nat := 172

def PLAYLIST_IS_MASTER_PLAYLIST_SETTING_OFFSET : Nat := 8
def PLAYLIST_IS_MASTER_PLAYLIST_SETTING_LEN : Nat := 1
def PLAYLIST_CREATED_TIMESTAMP_OFFSET : Nat := 12
def PLAYLIST_CREATED_TIMESTAMP_LEN : Nat := 4
def PLAYLIST_PLAYLIST_SORT_ORDER_OFFSET : Nat := 16
def PLAYLIST_PLAYLIST_SORT_ORDER_LEN : Nat := 4
def PLAYLIST_LAST_OFFSET : Nat := 20

def PLAYLIST_ITEM_ADDED_TIMESTAMP_OFFSET : Nat := 8
def PLAYLIST_ITEM_ADDED_TIMESTAMP_LEN : Nat := 4
def PLAYLIST_ITEM_LAST_OFFSET : Nat := 12

def ALBUM_LIST_TOTAL_NUM_SONGS_OFFSET : Nat := 8
def ALBUM_LIST_TOTAL_NUM_SONGS_LEN : Nat := 4
def ALBUM_LIST_LAST_OFFSET : Nat := 12

def DATA_OBJECT_TYPE_OFFSET : Nat := 12
def DATA_OBJECT_TYPE_LEN : Nat := 2
def DATA_OBJECT_STRING_LENGTH_OFFSET : Nat := 24
def DATA_OBJECT_STRING_LENGTH_LEN : Nat := 4
def DATA_OBJECT_STRING_LOCATION_OFFSET : Nat := 32
def DATA_OBJECT_LAST_OFFSET : Nat := 24

end itunesdb_constants

open itunesdb_constants

/-- The four handleable media types (spec section 3, MediaTypeContext). -/
inductive HandleableMediaType where
  | UNKNOWN
  | SongLike
  | Television
  | Podcast
deriving DecidableEq, Repr

/-- Modelled from the spec: `itunesdb::decode_track_media_type` maps the
media-type code to SongLike / Television / Podcast / Unknown (spec
section 4.3 TrackItem).  The spec does not list the numeric codes; the
model uses 1 for audio (SongLike), 4 for podcast and 64 for a TV show,
everything else Unknown. -/
def decode_track_media_type (raw : List Nat) : HandleableMediaType :=
  match build_le_u32_from_bytes raw with
  | 1 => .SongLike
  | 4 => .Podcast
  | 64 => .Television
  | _ => .UNKNOWN

namespace HandleableDataObjectType

/-! Modelled from the spec: the data-object (mhod) type codes named by
`itunesdb::HandleableDataObjectType`.  The spec fixes the set of
recognized string types and the two URL types but not the numeric
values; the model uses the standard iTunesDB code assignment. -/

def Title : Nat := 1
def FileLocation : Nat := 2
def Album : Nat := 3
def Artist : Nat := 4
def Genre : Nat := 5
def FileType : Nat := 6
def Comment : Nat := 8
def Composer : Nat := 12
def PodcastDescription : Nat := 14
def PodcastEnclosureURL : Nat := 15
def Podcast_RSS_URL : Nat := 16

end HandleableDataObjectType

/-- Modelled from the spec: `itunesdb::is_data_object_type_string`
(spec section 4.3 DataObject: the recognized string types are Title,
Album, Artist, Genre, Comment, Composer, FileLocation, FileType,
PodcastDescription). -/
def is_data_object_type_string (ty : Nat) : Bool :=
  ty = HandleableDataObjectType.Title ∨
  ty = HandleableDataObjectType.FileLocation ∨
  ty = HandleableDataObjectType.Album ∨
  ty = HandleableDataObjectType.Artist ∨
  ty = HandleableDataObjectType.Genre ∨
  ty = HandleableDataObjectType.FileType ∨
  ty = HandleableDataObjectType.Comment ∨
  ty = HandleableDataObjectType.Composer ∨
  ty = HandleableDataObjectType.PodcastDescription

/-- Modelled from the spec: `itunesdb::decode_track_item_filetype`, a
lookup from the 4-byte file-type code to an extension string; the model
keeps the raw code bytes as the extension stand-in. -/
def decode_track_item_filetype (raw : List Nat) : List Nat := raw

/-- Modelled from the spec: `itunesdb::decode_track_samplerate_to_hz`,
a sample-rate-code to Hz lookup; the model keeps the raw code. -/
def decode_track_samplerate_to_hz (raw : Nat) : Nat := raw

/-- Modelled from the spec: `itunesdb::track_has_artwork` tests the
artwork-present flag byte. -/
def track_has_artwork (flag : List Nat) : Bool := flag.getD 0 0 = 1

/-- Modelled from the spec: `itunesdb::decode_podcast_urls` decodes the
URL-shaped sub-payload of the two podcast URL data-object types; the
payload shape is left unspecified by the spec and the result is unused
by the scan state, so the model returns an empty unit list. -/
def decode_podcast_urls (_idx : Nat) (_buf : List Nat) : List Nat := []

/-- `itunesdb::IpodModel` (spec section 3 DeviceInfo model enum with
sub-variant label). -/
inductive IpodModel where
  | Mini (v : String)
  | Nano (v : String)
  | Classic (v : String)
  | Unknown
deriving DecidableEq, Repr

/-- `itunesdb::IpodDeviceInfo` (spec section 3 DeviceInfo). -/
structure IpodDeviceInfo where
  model : IpodModel := .Unknown
  generation : String := ""
  name : String := ""
  release_year : Option Nat := none
deriving DecidableEq, Repr

/-- Modelled from the spec: `itunesdb::Song` (spec section 3), with the
fields the parser assigns.  Decoded strings are UTF-16 code-unit
lists; `song_duration_s` is the seconds value the human-readable
duration string renders. -/
structure Song where
  song_title : List Nat := []
  song_artist : List Nat := []
  song_album : List Nat := []
  song_genre : List Nat := []
  song_comment : List Nat := []
  song_composer : List Nat := []
  song_filename : List Nat := []
  file_extension : List Nat := []
  bitrate_kbps : Nat := 0
  sample_rate_hz : Nat := 0
  file_size_bytes : Nat := 0
  song_duration_ms : Nat := 0
  song_duration_s : Nat := 0
  num_plays : Nat := 0
  song_rating_raw : Nat := 0
  song_year : Nat := 0
  song_added_to_library_epoch : Nat := 0
  ipod_model : IpodModel := .Unknown
  ipod_generation : String := ""
  ipod_name : String := ""
  ipod_release_year : Option Nat := none
deriving DecidableEq, Repr

/-- Modelled from the spec: `Song::set_song_filesize`. -/
def Song.set_song_filesize (s : Song) (n : Nat) : Song :=
  { s with file_size_bytes := n }

/-- Modelled from the spec: `Song::set_song_duration` stores the raw
milliseconds and the derived seconds used by the friendly string. -/
def Song.set_song_duration (s : Song) (raw_ms : Nat) : Song :=
  { s with song_duration_ms := raw_ms, song_duration_s := raw_ms / 1000 }

/-- Modelled from the spec: `Song::set_song_filename`. -/
def Song.set_song_filename (s : Song) (f : List Nat) : Song :=
  { s with song_filename := f }

/-- Modelled from the spec: `Song::set_song_added_timestamp`. -/
def Song.set_song_added_timestamp (s : Song) (epoch : Nat) : Song :=
  { s with song_added_to_library_epoch := epoch }

/-- Modelled from the spec: `Song::are_enough_fields_valid`, the
minimum field-validity threshold (spec section 3: non-empty filename
and title at minimum). -/
def Song.are_enough_fields_valid (s : Song) : Bool :=
  !s.song_filename.isEmpty && !s.song_title.isEmpty

/-- Modelled from the spec: `itunesdb::Podcast` (spec section 3). -/
structure Podcast where
  podcast_title : List Nat := []
  podcast_publisher : List Nat := []
  podcast_genre : List Nat := []
  podcast_subtitle : List Nat := []
  podcast_description : List Nat := []
  podcast_file_type : List Nat := []
  ipod_model : IpodModel := .Unknown
  ipod_generation : String := ""
  ipod_name : String := ""
  ipod_release_year : Option Nat := none
deriving DecidableEq, Repr

/-- A fresh `Song::default()` with the device-info fields set, as the
parser does both at scan start and after a successful push. -/
def defaultSongWith (di : IpodDeviceInfo) : Song :=
  { ipod_model := di.model
    ipod_generation := di.generation
    ipod_name := di.name
    ipod_release_year := di.release_year }

/-- A fresh `Podcast::default()` with the device-info fields set. -/
def defaultPodcastWith (di : IpodDeviceInfo) : Podcast :=
  { ipod_model := di.model
    ipod_generation := di.generation
    ipod_name := di.name
    ipod_release_year := di.release_year }

/-- `check_for_artwork_support`: inner scan loop, advancing one byte at
a time, true as soon as some `mhit` occurrence has artwork flag 1.
The first argument counts the iterations left, `bound - idx`: it is
positive exactly while the source condition `idx < bound` holds, and
the recursion is structural on it so the kernel can evaluate it. -/
def artworkLoop (buf : List Nat) : Nat → Nat → Except ParseErr Bool
  | 0, _ => .ok false
  | remaining + 1, idx =>
    if (buf.drop idx).take DEFAULT_SUBSTRUCTURE_SIZE = keyCodes TRACK_ITEM_KEY then
      match slice buf (idx + TRACK_ITEM_TRACK_HAS_ARTWORK_SETTING_OFFSET)
          TRACK_ITEM_TRACK_HAS_ARTWORK_SETTING_LEN with
      | .error e => .error e
      | .ok flag =>
        if flag.getD 0 0 = 1 then .ok true else artworkLoop buf remaining (idx + 1)
    else artworkLoop buf remaining (idx + 1)

/-- `check_for_artwork_support` (parser lines 142-161).  The loop bound
`len - DEFAULT_SUBSTRUCTURE_SIZE` underflows in debug Rust when the
buffer is shorter than 4 bytes. -/
def check_for_artwork_support (buf : List Nat) : Except ParseErr Bool :=
  if buf.length < DEFAULT_SUBSTRUCTURE_SIZE then .error .usizeUnderflow
  else artworkLoop buf (buf.length - DEFAULT_SUBSTRUCTURE_SIZE) 0


/-- `check_for_photo_support`: inner scan loop over `mhsd` records
looking for dataset type 3, with the same remaining-iterations
argument as `artworkLoop`. -/
def photoLoop (buf : List Nat) : Nat → Nat → Except ParseErr Bool
  | 0, _ => .ok false
  | remaining + 1, idx =>
    if (buf.drop idx).take DEFAULT_SUBSTRUCTURE_SIZE = keyCodes DATASET_KEY then
      match get_slice_as_le_u32 idx buf DATASET_TYPE_OFFSET DATASET_TYPE_LEN with
      | .error e => .error e
      | .ok ty => if ty = 3 then .ok true else photoLoop buf remaining (idx + 1)
    else photoLoop buf remaining (idx + 1)

/-- `check_for_photo_support` (parser lines 163-182). -/
def check_for_photo_support (buf : List Nat) : Except ParseErr Bool :=
  if buf.length < DEFAULT_SUBSTRUCTURE_SIZE then .error .usizeUnderflow
  else photoLoop buf (buf.length - DEFAULT_SUBSTRUCTURE_SIZE) 0

/-- `estimate_device_capacity`: inner scan loop summing the file-size
field of every `mhit` occurrence, with the same remaining-iterations
argument as `artworkLoop`. -/
def capacityLoop (buf : List Nat) : Nat → Nat → Nat → Except ParseErr Nat
  | 0, _, total => .ok total
  | remaining + 1, idx, total =>
    if (buf.drop idx).take DEFAULT_SUBSTRUCTURE_SIZE = keyCodes TRACK_ITEM_KEY then
      match get_slice_as_le_u32 idx buf TRACK_ITEM_TRACK_FILE_SIZE_BYTES_OFFSET
          TRACK_ITEM_TRACK_FILE_SIZE_BYTES_LEN with
      | .error e => .error e
      | .ok sz => capacityLoop buf remaining (idx + 1) (total + sz)
    else capacityLoop buf remaining (idx + 1) total

/-- The source's canonical-capacity match table (parser lines 208-216):
`0..=2 => 2, 3..=4 => 4, 5..=8 => 8, 9..=16 => 16, 17..=32 => 32,
33..=64 => 64, _ => 128`. -/
def capacityMatchTable (gb : Nat) : Nat :=
  if gb ≤ 2 then 2
  else if gb ≤ 4 then 4
  else if gb ≤ 8 then 8
  else if gb ≤ 16 then 16
  else if gb ≤ 32 then 32
  else if gb ≤ 64 then 64
  else 128

/-- `estimate_device_capacity` (parser lines 184-217).  The source
computes `(total as f64 / 1e9).ceil() as u32`; the model uses the exact
natural ceiling division, with which the f64 computation coincides for
every total below 2^53 (one ulp of the quotient is smaller than the
1e-9 contribution of a single byte). -/
def estimate_device_capacity (buf : List Nat) : Except ParseErr Nat :=
  if buf.length < DEFAULT_SUBSTRUCTURE_SIZE then .error .usizeUnderflow
  else
    match capacityLoop buf (buf.length - DEFAULT_SUBSTRUCTURE_SIZE) 0 0 with
    | .error e => .error e
    | .ok total => .ok (capacityMatchTable ((total + 999999999) / 1000000000))

/-- `extract_device_info` (parser lines 14-139): database version from
the fixed header offset, the three capability pre-passes, then the
version-range/capacity decision table. -/
def extract_device_info (buf : List Nat) : Except ParseErr IpodDeviceInfo := do
  let db_version ← get_slice_as_le_u32 0 buf DATABASE_OBJECT_VERSION_NUMBER_OFFSET
      DATABASE_OBJECT_VERSION_NUMBER_LEN
  let _has_artwork ← check_for_artwork_support buf
  let has_photos ← check_for_photo_support buf
  let device_capacity ← estimate_device_capacity buf
  let result : IpodModel × String × String × Option Nat :=
    if db_version = 9 then
      if device_capacity ≤ 4 then
        (.Mini "1st Generation", "1st Generation",
         s!"iPod Mini {device_capacity}GB (1st Gen)", some 2004)
      else
        (.Classic "3rd Generation", "3rd Generation",
         s!"iPod Classic {device_capacity}GB (3rd Gen)", some 2003)
    else if 10 ≤ db_version ∧ db_version ≤ 12 then
      if device_capacity ≤ 6 then
        (.Mini "2nd Generation", "2nd Generation",
         s!"iPod Mini {device_capacity}GB (2nd Gen)", some 2005)
      else
        (.Classic "4th Generation", "4th Generation",
         s!"iPod Classic {device_capacity}GB (4th Gen)", some 2004)
    else if 13 ≤ db_version ∧ db_version ≤ 14 then
      if has_photos ∧ device_capacity ≤ 4 then
        (.Nano "1st Generation", "1st Generation",
         s!"iPod Nano {device_capacity}GB (1st Gen)", some 2005)
      else if has_photos then
        (.Classic "5th Generation (Video)", "5th Generation",
         s!"iPod Classic {device_capacity}GB Video (5th Gen)", some 2005)
      else
        (.Classic "Color/Photo", "4th Generation",
         s!"iPod Classic {device_capacity}GB Color/Photo (4th Gen)", some 2004)
    else if 15 ≤ db_version ∧ db_version ≤ 18 then
      if device_capacity ≤ 8 then
        (.Nano "2nd Generation", "2nd Generation",
         s!"iPod Nano {device_capacity}GB (2nd Gen)", some 2006)
      else
        (.Classic "5th Generation Enhanced", "5th Generation",
         s!"iPod Classic {device_capacity}GB Enhanced (5th Gen)", some 2006)
    else if 19 ≤ db_version ∧ db_version ≤ 21 then
      if device_capacity ≤ 8 then
        (.Nano "3rd Generation", "3rd Generation",
         s!"iPod Nano {device_capacity}GB (3rd Gen)", some 2007)
      else
        (.Classic "6th Generation", "6th Generation",
         s!"iPod Classic {device_capacity}GB (6th Gen)", some 2007)
    else if 23 ≤ db_version ∧ db_version ≤ 25 then
      if device_capacity ≤ 16 then
        (.Nano "4th Generation", "4th Generation",
         s!"iPod Nano {device_capacity}GB (4th Gen)", some 2008)
      else
        (.Classic "6th Generation (Late 2008)", "6th Generation",
         s!"iPod Classic {device_capacity}GB (Late 2008)", some 2008)
    else
      (.Unknown, "Unknown", s!"Unknown iPod ({device_capacity}GB)", none)
  pure { model := result.1
         generation := result.2.1
         name := result.2.2.1
         release_year := result.2.2.2 }

/-- The mutable state of the main scan: the two result sequences, the
single open Song and Podcast builders, and the MediaTypeContext. -/
structure ScanState where
  songs : List Song
  podcasts : List Podcast
  currSong : Song
  currPodcast : Podcast
  currMediaType : HandleableMediaType
deriving DecidableEq, Repr

/-- The scan state at the start of the main loop (parser lines
226-243): empty result sets, fresh builders pre-populated with the
device info, context UNKNOWN. -/
def initState (di : IpodDeviceInfo) : ScanState :=
  { songs := []
    podcasts := []
    currSong := defaultSongWith di
    currPodcast := defaultPodcastWith di
    currMediaType := .UNKNOWN }

/-- The composite read the mhod string branch performs (parser lines
921-939): length field, payload bytes, UTF-16 decode. -/
def readMhodString (buf : List Nat) (idx : Nat) : Except ParseErr (List Nat) := do
  let strLen ← get_slice_as_le_u32 idx buf DATA_OBJECT_STRING_LENGTH_OFFSET
      DATA_OBJECT_STRING_LENGTH_LEN
  let strBytes ← get_slice_from_offset_with_len idx buf DATA_OBJECT_STRING_LOCATION_OFFSET strLen
  string_from_utf16 (return_utf16_from_utf8 strBytes)

/-- The mhod string dispatch chain (parser lines 949-1043): routes the
decoded string by (type code, MediaTypeContext), including the
FileLocation song terminator and the PodcastDescription podcast
terminator. -/
def applyDataObjectString (di : IpodDeviceInfo) (st : ScanState) (ty : Nat)
    (s : List Nat) : ScanState :=
  if ty = HandleableDataObjectType.Title then
    if st.currMediaType = .SongLike then
      { st with currSong := { st.currSong with song_title := s } }
    else if st.currMediaType = .Podcast then
      { st with currPodcast := { st.currPodcast with podcast_title := s } }
    else st
  else if ty = HandleableDataObjectType.Album then
    { st with currSong := { st.currSong with song_album := s } }
  else if ty = HandleableDataObjectType.Artist then
    if st.currMediaType = .SongLike then
      { st with currSong := { st.currSong with song_artist := s } }
    else if st.currMediaType = .Podcast then
      { st with currPodcast := { st.currPodcast with podcast_publisher := s } }
    else st
  else if ty = HandleableDataObjectType.Genre then
    if st.currMediaType = .SongLike then
      { st with currSong := { st.currSong with song_genre := s } }
    else if st.currMediaType = .Podcast then
      if st.currPodcast.podcast_genre.isEmpty then
        { st with currPodcast := { st.currPodcast with podcast_genre := s } }
      else st
    else st
  else if ty = HandleableDataObjectType.Comment then
    if st.currMediaType = .SongLike then
      { st with currSong := { st.currSong with song_comment := s } }
    else if st.currMediaType = .Podcast then
      { st with currPodcast := { st.currPodcast with podcast_subtitle := s } }
    else st
  else if ty = HandleableDataObjectType.Composer then
    { st with currSong := { st.currSong with song_composer := s } }
  else if ty = HandleableDataObjectType.FileLocation then
    let updated := st.currSong.set_song_filename s
    if updated.are_enough_fields_valid then
      { st with songs := st.songs ++ [updated], currSong := defaultSongWith di }
    else { st with currSong := updated }
  else if ty = HandleableDataObjectType.FileType then
    if st.currMediaType = .Podcast then
      { st with currPodcast := { st.currPodcast with podcast_file_type := s } }
    else st
  else if ty = HandleableDataObjectType.PodcastDescription then
    let p := if st.currMediaType = .Podcast then
        { st.currPodcast with podcast_description := s }
      else st.currPodcast
    if !p.podcast_title.isEmpty then
      { st with podcasts := st.podcasts ++ [p], currPodcast := defaultPodcastWith di }
    else { st with currPodcast := p }
  else st

/-- One iteration of the main scan loop body (parser lines 247-1066):
compares the 4 bytes under the cursor against the known markers,
decodes the matched record, and returns the new state together with
the in-branch cursor increment (the record's `*_LAST_OFFSET`, or 0
when no marker matches); the loop adds `DEFAULT_SUBSTRUCTURE_SIZE` on
top of it unconditionally.  Reads are performed in source order; state
updates, being pure, are folded into the single returned state. -/
def scanStep (buf : List Nat) (di : IpodDeviceInfo) (idx : Nat) (st : ScanState) :
    Except ParseErr (ScanState × Nat) := do
  let heading ← slice buf idx DEFAULT_SUBSTRUCTURE_SIZE
  if heading = keyCodes DATABASE_OBJECT_KEY then do
    let languageRaw ← get_slice_from_offset_with_len idx buf
        DATABASE_OBJECT_LANGUAGE_OFFSET DATABASE_OBJECT_LANGUAGE_LEN
    let _language ← utf8_check languageRaw
    let _version ← get_slice_as_le_u32 idx buf DATABASE_OBJECT_VERSION_NUMBER_OFFSET
        DATABASE_OBJECT_VERSION_NUMBER_LEN
    pure (st, DATABASE_OBJECT_LAST_OFFSET)
  else if heading = keyCodes DATASET_KEY then do
    let _datasetType ← get_slice_from_offset_with_len idx buf DATASET_TYPE_OFFSET
        DATASET_TYPE_LEN
    pure (st, DATASET_LAST_OFFSET)
  else if heading = keyCodes TRACKLIST_KEY then do
    let _numSongs ← get_slice_as_le_u32 idx buf TRACKLIST_NUM_SONGS_OFFSET
        TRACKLIST_NUM_SONGS_LEN
    pure (st, TRACKLIST_LAST_OFFSET)
  else if heading = keyCodes TRACK_ITEM_KEY then do
    let _trackNumber ← get_slice_as_le_u32 idx buf TRACK_ITEM_TRACK_NUMBER_OFFSET
        TRACK_ITEM_TRACK_NUMBER_LEN
    let _numTracks ← get_slice_as_le_u32 idx buf TRACK_ITEM_NUM_TRACKS_IN_ALBUM_OFFSET
        TRACK_ITEM_NUM_TRACKS_IN_ALBUM_LEN
    let numDiscs ← get_slice_as_le_u32 idx buf TRACK_ITEM_TRACK_TOTAL_NUM_DISCS_OFFSET
        TRACK_ITEM_TRACK_TOTAL_NUM_DISCS_LEN
    let _ ← if numDiscs > 0 then do
        let _discNumber ← get_slice_as_le_u32 idx buf TRACK_ITEM_TRACK_DISC_NUMBER_OFFSET
            TRACK_ITEM_TRACK_DISC_NUMBER_LEN
        pure ()
      else pure ()
    let filetypeRaw ← slice buf (idx + TRACK_ITEM_TRACK_FILETYPE_OFFSET)
        TRACK_ITEM_TRACK_FILETYPE_LEN
    let st1 := if build_le_u32_from_bytes filetypeRaw = 0 then st
      else { st with currSong :=
        { st.currSong with file_extension := decode_track_item_filetype filetypeRaw } }
    let mediaTypeRaw ← slice buf (idx + TRACK_ITEM_TRACK_MEDIA_TYPE_OFFSET)
        TRACK_ITEM_TRACK_MEDIA_TYPE_LEN
    let _movieFlag ← get_slice_as_le_u32 idx buf TRACK_ITEM_TRACK_MOVIE_FLAG_SETTING_OFFSET
        TRACK_ITEM_TRACK_MOVIE_FLAG_SETTING_LEN
    let mediaType := decode_track_media_type mediaTypeRaw
    if mediaType = .Television then do
      let _season ← get_slice_as_le_u32 idx buf TRACK_ITEM_TRACK_SEASON_NUMBER_OFFSET
          TRACK_ITEM_TRACK_SEASON_NUMBER_LEN
      let _episode ← get_slice_as_le_u32 idx buf TRACK_ITEM_TRACK_EPISODE_NUMBER_OFFSET
          TRACK_ITEM_TRACK_EPISODE_NUMBER_LEN
      pure (st1, TRACK_ITEM_LAST_OFFSET)
    else if mediaType = .SongLike then do
      let _advancedType ← get_slice_as_le_u32 idx buf TRACK_ITEM_ADVANCED_TRACK_TYPE_OFFSET
          TRACK_ITEM_ADVANCED_TRACK_TYPE_LEN
      let _userId ← get_slice_as_le_u32 idx buf TRACK_ITEM_TRACK_USER_ID_OFFSET
          TRACK_ITEM_TRACK_USER_ID_LEN
      let _bitrateSetting ← slice buf (idx + TRACK_ITEM_TRACK_BITRATE_SETTING_OFFSET)
          TRACK_ITEM_TRACK_BITRATE_SETTING_LEN
      let bitrate ← get_slice_as_le_u32 idx buf TRACK_ITEM_TRACK_BITRATE_OFFSET
          TRACK_ITEM_TRACK_BITRATE_LEN
      let sampleRateRaw ← get_slice_as_le_u32 idx buf TRACK_ITEM_TRACK_SAMPLE_RATE_OFFSET
          TRACK_ITEM_TRACK_SAMPLE_RATE_LEN
      let _volume ← get_slice_as_le_u32 idx buf TRACK_ITEM_TRACK_VOLUME_OFFSET
          TRACK_ITEM_TRACK_VOLUME_LEN
      let _bpm ← get_slice_as_le_u32 idx buf TRACK_ITEM_TRACK_BPM_OFFSET
          TRACK_ITEM_TRACK_BPM_LEN
      let sizeBytes ← get_slice_as_le_u32 idx buf TRACK_ITEM_TRACK_FILE_SIZE_BYTES_OFFSET
          TRACK_ITEM_TRACK_FILE_SIZE_BYTES_LEN
      if sizeBytes < 1 then .error .invalidTrack
      else do
        let lengthMs ← get_slice_as_le_u32 idx buf
            TRACK_ITEM_TRACK_LENGTH_MILLISECONDS_OFFSET
            TRACK_ITEM_TRACK_LENGTH_MILLISECONDS_LEN
        let _startTime ← get_slice_as_le_u32 idx buf TRACK_ITEM_TRACK_START_TIME_OFFSET
            TRACK_ITEM_TRACK_START_TIME_LEN
        let _stopTime ← get_slice_as_le_u32 idx buf TRACK_ITEM_TRACK_STOP_TIME_OFFSET
            TRACK_ITEM_TRACK_STOP_TIME_LEN
        let playCount ← get_slice_as_le_u32 idx buf TRACK_ITEM_TRACK_PLAY_COUNT_OFFSET
            TRACK_ITEM_TRACK_PLAY_COUNT_LEN
        let _skippedCount ← get_slice_as_le_u32 idx buf TRACK_ITEM_TRACK_SKIPPED_COUNT_OFFSET
            TRACK_ITEM_TRACK_SKIPPED_COUNT_LEN
        let _lastPlayed ← get_slice_as_mac_timestamp idx buf
            TRACK_ITEM_TRACK_LAST_PLAYED_TIMESTAMP_OFFSET
            TRACK_ITEM_TRACK_LAST_PLAYED_TIMESTAMP_LEN
        let _lastSkipped ← get_slice_as_mac_timestamp idx buf
            TRACK_ITEM_TRACK_LAST_SKIPPED_TIMESTAMP_OFFSET
            TRACK_ITEM_TRACK_LAST_SKIPPED_TIMESTAMP_LEN
        let _skipShuffle ← slice buf
            (idx + TRACK_ITEM_TRACK_SKIP_WHEN_SHUFFLING_SETTING_OFFSET)
            TRACK_ITEM_TRACK_SKIP_WHEN_SHUFFLING_SETTING_LEN
        let _compilation ← slice buf (idx + TRACK_ITEM_IS_COMPILATION_SETTING_OFFSET)
            TRACK_ITEM_IS_COMPILATION_SETTING_LEN
        let _lyrics ← slice buf (idx + TRACK_ITEM_TRACK_LYRICS_AVAILABLE_SETTING_OFFSET)
            TRACK_ITEM_TRACK_LYRICS_AVAILABLE_SETTING_LEN
        let rating ← get_slice_as_le_u32 idx buf TRACK_ITEM_TRACK_RATING_OFFSET
            TRACK_ITEM_TRACK_RATING_LEN
        let _ ← if rating > 0 then do
            let _prevRating ← get_slice_as_le_u32 idx buf
                TRACK_ITEM_TRACK_PREVIOUS_RATING_OFFSET TRACK_ITEM_TRACK_PREVIOUS_RATING_LEN
            pure ()
          else pure ()
        let gapless ← get_slice_as_le_u32 idx buf
            TRACK_ITEM_TRACK_GAPLESS_PLAYBACK_SETTING_OFFSET
            TRACK_ITEM_TRACK_GAPLESS_PLAYBACK_SETTING_LEN
        let _ ← if gapless = 1 then do
            let _begSilence ← get_slice_as_le_u32 idx buf
                TRACK_ITEM_TRACK_BEGINNING_SILENCE_SAMPLE_COUNT_OFFSET
                TRACK_ITEM_TRACK_BEGINNING_SILENCE_SAMPLE_COUNT_LEN
            let _endSilence ← get_slice_as_le_u32 idx buf
                TRACK_ITEM_TRACK_ENDING_SILENCE_SAMPLE_COUNT_OFFSET
                TRACK_ITEM_TRACK_ENDING_SILENCE_SAMPLE_COUNT_LEN
            let _numSamples ← get_slice_as_le_u64 idx buf TRACK_ITEM_TRACK_NUM_SAMPLES_OFFSET
                TRACK_ITEM_TRACK_NUM_SAMPLES_LEN
            pure ()
          else pure ()
        let _crossfade ← get_slice_as_le_u32 idx buf
            TRACK_ITEM_TRACK_CROSSFADING_SETTING_OFFSET
            TRACK_ITEM_TRACK_CROSSFADING_SETTING_LEN
        let artworkFlag ← slice buf (idx + TRACK_ITEM_TRACK_HAS_ARTWORK_SETTING_OFFSET)
            TRACK_ITEM_TRACK_HAS_ARTWORK_SETTING_LEN
        let _ ← if track_has_artwork artworkFlag then do
            let _artworkSize ← get_slice_as_le_u32 idx buf
                TRACK_ITEM_TRACK_ARTWORK_SIZE_BYTES_OFFSET
                TRACK_ITEM_TRACK_ARTWORK_SIZE_BYTES_LEN
            pure ()
          else pure ()
        let yearReleased ← get_slice_as_le_u32 idx buf TRACK_ITEM_TRACK_YEAR_PUBLISHED_OFFSET
            TRACK_ITEM_TRACK_YEAR_PUBLISHED_LEN
        let addedEpoch ← get_slice_as_le_u32 idx buf TRACK_ITEM_TRACK_ADDED_TIMESTAMP_OFFSET
            TRACK_ITEM_TRACK_ADDED_TIMESTAMP_LEN
        let _modified ← get_slice_as_mac_timestamp idx buf
            TRACK_ITEM_TRACK_MODIFIED_TIME_OFFSET TRACK_ITEM_TRACK_MODIFIED_TIME_LEN
        let _released ← get_slice_as_mac_timestamp idx buf
            TRACK_ITEM_TRACK_RELEASED_TIMESTAMP_OFFSET TRACK_ITEM_TRACK_RELEASED_TIMESTAMP_LEN
        let song := st1.currSong
        let song := { song with
          bitrate_kbps := bitrate
          sample_rate_hz := decode_track_samplerate_to_hz sampleRateRaw }
        let song := song.set_song_filesize sizeBytes
        let song := song.set_song_duration lengthMs
        let song := { song with num_plays := playCount }
        let song := if rating > 0 then { song with song_rating_raw := rating % 256 } else song
        let song := if yearReleased ≠ 0 then { song with song_year := yearReleased % 65536 }
          else song
        let song := if addedEpoch > 0 then song.set_song_added_timestamp addedEpoch else song
        pure ({ st1 with currSong := song, currMediaType := mediaType },
          TRACK_ITEM_LAST_OFFSET)
    else if mediaType = .Podcast then
      pure ({ st1 with currMediaType := mediaType }, TRACK_ITEM_LAST_OFFSET)
    else
      pure (st1, TRACK_ITEM_LAST_OFFSET)
  else if heading = keyCodes PLAYLIST_KEY then do
    let _isMaster ← slice buf (idx + PLAYLIST_IS_MASTER_PLAYLIST_SETTING_OFFSET)
        PLAYLIST_IS_MASTER_PLAYLIST_SETTING_LEN
    let _created ← get_slice_as_mac_timestamp idx buf PLAYLIST_CREATED_TIMESTAMP_OFFSET
        PLAYLIST_CREATED_TIMESTAMP_LEN
    let _sortOrder ← get_slice_as_le_u32 idx buf PLAYLIST_PLAYLIST_SORT_ORDER_OFFSET
        PLAYLIST_PLAYLIST_SORT_ORDER_LEN
    pure (st, PLAYLIST_LAST_OFFSET)
  else if heading = keyCodes PLAYLIST_ITEM_KEY then do
    let _added ← get_slice_as_mac_timestamp idx buf PLAYLIST_ITEM_ADDED_TIMESTAMP_OFFSET
        PLAYLIST_ITEM_ADDED_TIMESTAMP_LEN
    pure (st, PLAYLIST_ITEM_LAST_OFFSET)
  else if heading = keyCodes ALBUM_LIST_KEY then do
    let _totalSongs ← get_slice_as_le_u32 idx buf ALBUM_LIST_TOTAL_NUM_SONGS_OFFSET
        ALBUM_LIST_TOTAL_NUM_SONGS_LEN
    pure (st, ALBUM_LIST_LAST_OFFSET)
  else if heading = keyCodes DATA_OBJECT_KEY then do
    let dataObjectType ← get_slice_as_le_u32 idx buf DATA_OBJECT_TYPE_OFFSET
        DATA_OBJECT_TYPE_LEN
    if is_data_object_type_string dataObjectType then do
      let s ← readMhodString buf idx
      pure (applyDataObjectString di st dataObjectType s, DATA_OBJECT_LAST_OFFSET)
    else do
      let _urls := if dataObjectType = HandleableDataObjectType.PodcastEnclosureURL ∨
          dataObjectType = HandleableDataObjectType.Podcast_RSS_URL then
          decode_podcast_urls idx buf
        else []
      pure (st, DATA_OBJECT_LAST_OFFSET)
  else
    pure (st, 0)

/-- The main scan loop (parser lines 247-1069): while `idx < bound`
the step runs and the cursor advances by the step's in-branch
increment plus the unconditional `DEFAULT_SUBSTRUCTURE_SIZE`.  The
first `Nat` argument is structural-recursion fuel; every step advances
the cursor by at least `DEFAULT_SUBSTRUCTURE_SIZE`, so starting the
fuel at `bound` (as `parseFull` does) strictly dominates the number of
iterations the source loop performs and the fuel-zero case is only
reached with `idx ≥ bound`, where it agrees with the loop exit. -/
def scanLoop (buf : List Nat) (di : IpodDeviceInfo) (bound : Nat) :
    Nat → Nat → ScanState → Except ParseErr ScanState
  | 0, _, st => .ok st
  | fuel + 1, idx, st =>
    if idx < bound then
      match scanStep buf di idx st with
      | .error e => .error e
      | .ok (st', extra) =>
        scanLoop buf di bound fuel (idx + extra + DEFAULT_SUBSTRUCTURE_SIZE) st'
    else .ok st

/-- `parse_itunesdb_file` (parser lines 220-1069) up to its final
state: device inference, then the marker scan from cursor 0.  The
loop bound `len - DEFAULT_SUBSTRUCTURE_SIZE` underflows in debug Rust
for buffers shorter than 4 bytes. -/
def parseFull (buf : List Nat) : Except ParseErr (IpodDeviceInfo × ScanState) := do
  let di ← extract_device_info buf
  if buf.length < DEFAULT_SUBSTRUCTURE_SIZE then .error .usizeUnderflow
  else do
    let bound := buf.length - DEFAULT_SUBSTRUCTURE_SIZE
    let finalState ← scanLoop buf di bound bound 0 (initState di)
    pure (di, finalState)

/-- The observable outcome of `parse_itunesdb_file`: the ordered
`songs_found` and `podcasts_found` sequences (the CSV/JSON writing
collaborators are out of scope per spec section 1). -/
def parse_itunesdb_file (buf : List Nat) : Except ParseErr (List Song × List Podcast) :=
  (parseFull buf).map (fun r => (r.2.songs, r.2.podcasts))

/-! Concrete input buffers used to settle the claims. -/

/-- Little-endian 4-byte encoding of a field value. -/
def le4 (n : Nat) : List Nat := [n % 256, n / 256 % 256, n / 65536 % 256, n / 16777216 % 256]

/-- Little-endian 2-byte encoding of a field value. -/
def le2 (n : Nat) : List Nat := [n % 256, n / 256 % 256]

/-- `n` zero bytes. -/
def zeros (n : Nat) : List Nat := List.replicate n 0

/-- UTF-16LE byte encoding of an ASCII string payload. -/
def utf16leBytes (s : String) : List Nat :=
  s.toList.foldr (fun c acc => c.toNat :: 0 :: acc) []

/-- A 24-byte `mhbd` record: language code "en" at offset 8, the given
database version at offset 16, everything else zero. -/
def mhbdRecord (version : Nat) : List Nat :=
  keyCodes DATABASE_OBJECT_KEY ++ zeros 4 ++ [101, 110] ++ zeros 6 ++ le4 version ++ zeros 4

/-- A 172-byte `mhit` record: the given media-type code at offset 28,
file size at offset 72, duration (ms) at offset 76, all other fields
zero. -/
def mhitRecord (media size ms : Nat) : List Nat :=
  keyCodes TRACK_ITEM_KEY ++ zeros 24 ++ le4 media ++ zeros 40 ++ le4 size ++ le4 ms ++ zeros 92

/-- An `mhod` record with the given 2-byte type code at offset 12, the
payload length at offset 24 and the payload at offset 32, zero-padded
to `padTo` bytes. -/
def mhodString (ty : Nat) (payload : List Nat) (padTo : Nat) : List Nat :=
  keyCodes DATA_OBJECT_KEY ++ zeros 8 ++ le2 ty ++ zeros 10 ++ le4 payload.length ++
    zeros 4 ++ payload ++ zeros (padTo - (32 + payload.length))

/-- C1's end-to-end buffer: one mhbd (version 0x13), one SongLike mhit
(size 5,000,000, duration 180,000 ms), then mhod records for Title,
Artist, Album, FileLocation. -/
def endToEndBuf : List Nat :=
  mhbdRecord 19 ++ mhitRecord 1 5000000 180000 ++ zeros 4 ++
  mhodString HandleableDataObjectType.Title (utf16leBytes "Test Song") 56 ++
  mhodString HandleableDataObjectType.Artist (utf16leBytes "Test Artist") 56 ++
  mhodString HandleableDataObjectType.Album (utf16leBytes "Test Album") 56 ++
  mhodString HandleableDataObjectType.FileLocation (utf16leBytes "/song.mp3") 56

/-- The device classification `extract_device_info` produces on
`endToEndBuf`: version 0x13 with estimated capacity 2 GB. -/
def nanoDevice : IpodDeviceInfo :=
  { model := .Nano "3rd Generation"
    generation := "3rd Generation"
    name := "iPod Nano 2GB (3rd Gen)"
    release_year := some 2007 }

/-- The device classification for a buffer whose version field reads
zero (capacity estimate 2 GB): the unmatched-version fallback. -/
def unknownDevice : IpodDeviceInfo :=
  { model := .Unknown
    generation := "Unknown"
    name := "Unknown iPod (2GB)"
    release_year := none }

/-- The single Song the end-to-end parse of `endToEndBuf` emits. -/
def expectedEndToEndSong : Song :=
  { defaultSongWith nanoDevice with
    song_title := keyCodes "Test Song"
    song_artist := keyCodes "Test Artist"
    song_album := keyCodes "Test Album"
    song_filename := keyCodes "/song.mp3"
    file_size_bytes := 5000000
    song_duration_ms := 180000
    song_duration_s := 180 }

/-- C8's ordering buffer: a Podcast mhit, then PodcastDescription "D1"
(title still empty), then Title "T", then PodcastDescription "D2". -/
def podcastOrderingBuf : List Nat :=
  mhitRecord 4 0 0 ++ zeros 4 ++
  mhodString HandleableDataObjectType.PodcastDescription (utf16leBytes "D1") 56 ++
  mhodString HandleableDataObjectType.Title (utf16leBytes "T") 56 ++
  mhodString HandleableDataObjectType.PodcastDescription (utf16leBytes "D2") 56

/-- C2's buffer: a single zero byte, then a complete SongLike mhit
record with file size zero.  The record sits at offset 1; a scanner
that advanced one byte at a time on non-match would compare at offset
1, decode it and abort with InvalidTrack. -/
def offsetOneTrackBuf : List Nat := (0 :: mhitRecord 1 0 0) ++ zeros 3

/-- C4's first mhod record: an unrecognized type code (99) and a
declared length field of 40. -/
def unrecognizedMhodA : List Nat :=
  keyCodes DATA_OBJECT_KEY ++ zeros 8 ++ le2 99 ++ zeros 10 ++ le4 40 ++ zeros 4

/-- C4's second mhod record: identical except the declared length
field reads 8000. -/
def unrecognizedMhodB : List Nat :=
  keyCodes DATA_OBJECT_KEY ++ zeros 8 ++ le2 99 ++ zeros 10 ++ le4 8000 ++ zeros 4

/-- C7's buffer with three TrackItems whose sizes sum to exactly
4.0 GB. -/
def capacityBuf4 : List Nat :=
  mhitRecord 0 1500000000 0 ++ mhitRecord 0 1500000000 0 ++ mhitRecord 0 1000000000 0

/-- C7's buffer with three TrackItems whose sizes sum to 4.1 GB. -/
def capacityBuf41 : List Nat :=
  mhitRecord 0 1500000000 0 ++ mhitRecord 0 1500000000 0 ++ mhitRecord 0 1100000000 0

/-! Spec-side definitions for the capacity claim (C7), written from the
claim's own words rather than from the source. -/

/-- The canonical capacities the spec names, ascending; values above
the last snap to 128. -/
def canonicalCapacities : List Nat := [2, 4, 8, 16, 32, 64]

/-- Spec-side snapping: the first canonical capacity at least as large
as the rounded-up gigabyte count, 128 when it exceeds them all. -/
def snapToCanonical (gb : Nat) : Nat :=
  (canonicalCapacities.find? (fun c => gb ≤ c)).getD 128

/-- Spec-side sum of the file-size fields of all TrackItem records
found in the buffer: at every cursor position of the marker scan whose
4 bytes read `mhit`, the 4-byte little-endian file-size field of that
record.  Same remaining-iterations convention as the loops. -/
def trackSizeSumFrom (buf : List Nat) : Nat → Nat → Nat
  | 0, _ => 0
  | remaining + 1, idx =>
    (if (buf.drop idx).take DEFAULT_SUBSTRUCTURE_SIZE = keyCodes TRACK_ITEM_KEY then
      build_le_u32_from_bytes
        ((buf.drop (idx + TRACK_ITEM_TRACK_FILE_SIZE_BYTES_OFFSET)).take
          TRACK_ITEM_TRACK_FILE_SIZE_BYTES_LEN)
    else 0) + trackSizeSumFrom buf remaining (idx + 1)

/-- Spec-side total: the file-size sum over the whole scan range. -/
def trackSizeSum (buf : List Nat) : Nat :=
  trackSizeSumFrom buf (buf.length - DEFAULT_SUBSTRUCTURE_SIZE) 0

/-- The eight known record markers of the main scan dispatch. -/
def knownSectionKeys : List (List Nat) :=
  [keyCodes DATABASE_OBJECT_KEY, keyCodes DATASET_KEY, keyCodes TRACKLIST_KEY,
   keyCodes TRACK_ITEM_KEY, keyCodes PLAYLIST_KEY, keyCodes PLAYLIST_ITEM_KEY,
   keyCodes ALBUM_LIST_KEY, keyCodes DATA_OBJECT_KEY]

/-- A scan state whose MediaTypeContext is SongLike while the open
Podcast builder already has a (non-empty) title, used to exercise the
PodcastDescription push with a non-Podcast context (C9). -/
def songContextPodcastState : ScanState :=
  { initState unknownDevice with
    currMediaType := .SongLike
    currPodcast := { defaultPodcastWith unknownDevice with podcast_title := keyCodes "X" } }

/-- A scan state whose open Song builder has an artist but no title:
a FileLocation arriving now fails the validity threshold (C10). -/
def artistOnlySongState : ScanState :=
  { initState unknownDevice with
    currSong := { defaultSongWith unknownDevice with song_artist := keyCodes "A" } }

/-- The same builder after a Title arrived: the next FileLocation
meets the validity threshold (C10). -/
def titledSongState : ScanState :=
  { initState unknownDevice with
    currSong := { defaultSongWith unknownDevice with
                  song_title := keyCodes "T"
                  song_artist := keyCodes "A" } }

/-- A single PodcastDescription mhod record with payload "D". -/
def descMhodBuf : List Nat :=
  mhodString HandleableDataObjectType.PodcastDescription (utf16leBytes "D") 40

/-- A single FileLocation mhod record with payload "/x.mp3". -/
def fileLocationMhodBuf : List Nat :=
  mhodString HandleableDataObjectType.FileLocation (utf16leBytes "/x.mp3") 48

end ItunesDb

/-- Decidable equality of parse outcomes, for evaluating the embedded
parser on concrete buffers. -/
instance {ε α : Type} [DecidableEq ε] [DecidableEq α] : DecidableEq (Except ε α) := fun x y =>
  match x, y with
  | .error a, .error b =>
    if h : a = b then .isTrue (by rw [h]) else .isFalse (fun hc => h (Except.error.inj hc))
  | .ok a, .ok b =>
    if h : a = b then .isTrue (by rw [h]) else .isFalse (fun hc => h (Except.ok.inj hc))
  | .error _, .ok _ => .isFalse (fun hc => Except.noConfusion hc)
  | .ok _, .error _ => .isFalse (fun hc => Except.noConfusion hc)

namespace ItunesDb

open itunesdb_constants

/-! Helper lemmas shared by the claim proofs. -/

theorem slice_ok (buf : List Nat) (off len : Nat) (h : off + len ≤ buf.length) :
    slice buf off len = .ok ((buf.drop off).take len) := by
  simp [slice, h]

theorem get_slice_from_offset_with_len_ok (idx : Nat) (buf : List Nat) (off len : Nat)
    (h : idx + off + len ≤ buf.length) :
    get_slice_from_offset_with_len idx buf off len =
      .ok ((buf.drop (idx + off)).take len) := by
  simp [get_slice_from_offset_with_len, slice, h]

theorem get_slice_as_le_u32_ok (idx : Nat) (buf : List Nat) (off len : Nat)
    (h : idx + off + len ≤ buf.length) :
    get_slice_as_le_u32 idx buf off len =
      .ok (build_le_u32_from_bytes ((buf.drop (idx + off)).take len)) := by
  simp [get_slice_as_le_u32, get_slice_from_offset_with_len, slice, h, Except.map]

theorem get_slice_as_le_u64_ok (idx : Nat) (buf : List Nat) (off len : Nat)
    (h : idx + off + len ≤ buf.length) :
    get_slice_as_le_u64 idx buf off len =
      .ok (build_le_u32_from_bytes ((buf.drop (idx + off)).take len)) := by
  simp [get_slice_as_le_u64, get_slice_from_offset_with_len, slice, h, Except.map]

theorem get_slice_as_mac_timestamp_ok (idx : Nat) (buf : List Nat) (off len : Nat)
    (h : idx + off + len ≤ buf.length) :
    get_slice_as_mac_timestamp idx buf off len =
      .ok ((build_le_u32_from_bytes ((buf.drop (idx + off)).take len) : Int) - 2082844800) := by
  simp [get_slice_as_mac_timestamp, get_slice_as_le_u32, get_slice_from_offset_with_len,
    slice, h, Except.map]

theorem get_slice_as_le_u32_ok_val {idx : Nat} {buf : List Nat} {off len v : Nat}
    (h : get_slice_as_le_u32 idx buf off len = .ok v) :
    v = build_le_u32_from_bytes ((buf.drop (idx + off)).take len) := by
  by_cases hb : idx + off + len ≤ buf.length
  · rw [get_slice_as_le_u32_ok idx buf off len hb] at h
    exact (Except.ok.inj h).symm
  · simp [get_slice_as_le_u32, get_slice_from_offset_with_len, slice, hb, Except.map] at h

theorem exceptBind_ok {α β : Type} (a : α) (f : α → Except ParseErr β) :
    ((Except.ok a : Except ParseErr α) >>= f) = f a := rfl

theorem exceptPure_eq_ok {α : Type} (a : α) : (pure a : Except ParseErr α) = .ok a := rfl

end ItunesDb

namespace ItunesDb

open itunesdb_constants

set_option maxRecDepth 1000000

/-- C1: for the end-to-end buffer (mhbd version 0x13, SongLike mhit of
5,000,000 bytes / 180,000 ms, then Title/Artist/Album/FileLocation
mhods), the parse emits exactly one Song carrying the device
classification Nano / "3rd Generation" / 2007 — not the
"4th Generation" / 2008 the claim asserts for version 0x13 with
capacity at most 16 GB.  In the source's decision table the 4th
Generation / 2008 row is the 0x17..0x19 version range; 0x13..0x15 with
small capacity is Nano 3rd Generation, 2007. -/
theorem end_to_end_device_generation_counterexample :
    (parseFull endToEndBuf).map
        (fun r => r.2.songs.map (fun s => (s.ipod_generation, s.ipod_release_year))) =
      .ok [("3rd Generation", some 2007)] ∧
    ("3rd Generation" : String) ≠ "4th Generation" ∧
    (some 2007 : Option Nat) ≠ some 2008 := by
  refine ⟨by decide, by decide, by decide⟩

/-- C1 (amended): the end-to-end buffer yields exactly one Song whose
title, artist, album and filename are the four strings, whose friendly
duration corresponds to 180 seconds, and whose attached device
classification for version 0x13 with the estimated capacity (2 GB,
which is at most 8 GB) is model Nano, generation "3rd Generation",
release year 2007; the final scan state holds fresh builders
pre-populated with that device info. -/
theorem end_to_end_parse_amended :
    parseFull endToEndBuf =
      .ok (nanoDevice,
        { songs := [expectedEndToEndSong]
          podcasts := []
          currSong := defaultSongWith nanoDevice
          currPodcast := defaultPodcastWith nanoDevice
          currMediaType := .SongLike }) := by
  decide

/-- C3: the claim says a markerless buffer of any length (0 through 4
included) parses to empty sequences without any error; the code
disagrees on short buffers: on the empty buffer the parse aborts
(the device-inference header read is unconditional, and the scan
bounds `len - DEFAULT_SUBSTRUCTURE_SIZE` underflow for `len < 4`,
visible in isolation on `check_for_artwork_support`), while a
markerless buffer long enough for the header read does parse to empty
sequences. -/
theorem short_markerless_buffer_parse_fails :
    parse_itunesdb_file [] = .error .outOfBounds ∧
    check_for_artwork_support [] = .error .usizeUnderflow ∧
    parse_itunesdb_file (zeros 24) = .ok ([], []) := by
  refine ⟨by decide, by decide, by decide⟩

/-- C2: a complete SongLike mhit record with zero file size sits at
byte offset 1 of `offsetOneTrackBuf`; decoding it aborts the parse
(first conjunct, the step at cursor 1).  At cursor 0 no marker matches
(second conjunct: the step leaves the state untouched with in-branch
increment 0, after which the loop adds `DEFAULT_SUBSTRUCTURE_SIZE`).
If the scanner advanced by exactly 1 byte on a non-match it would next
compare at offset 1 and abort; instead the whole parse succeeds with
empty results (third conjunct), so the no-match advance is not 1 byte
(fourth conjunct: it is 4). -/
theorem no_match_advance_counterexample :
    scanStep offsetOneTrackBuf unknownDevice 1 (initState unknownDevice) =
      .error .invalidTrack ∧
    scanStep offsetOneTrackBuf unknownDevice 0 (initState unknownDevice) =
      .ok (initState unknownDevice, 0) ∧
    parse_itunesdb_file offsetOneTrackBuf = .ok ([], []) ∧
    DEFAULT_SUBSTRUCTURE_SIZE ≠ 1 := by
  refine ⟨by decide, by decide, by decide, by decide⟩

/-- C4: the two mhod records differ only in the length field declared
inside the record header (40 versus 8000), yet the scanner's in-branch
increment is the fixed constant `DATA_OBJECT_LAST_OFFSET` for both:
the stride past an mhod record is not derived from the declared
length. -/
theorem mhod_stride_fixed_counterexample :
    scanStep unrecognizedMhodA unknownDevice 0 (initState unknownDevice) =
      .ok (initState unknownDevice, DATA_OBJECT_LAST_OFFSET) ∧
    scanStep unrecognizedMhodB unknownDevice 0 (initState unknownDevice) =
      .ok (initState unknownDevice, DATA_OBJECT_LAST_OFFSET) ∧
    get_slice_as_le_u32 0 unrecognizedMhodA DATA_OBJECT_STRING_LENGTH_OFFSET
      DATA_OBJECT_STRING_LENGTH_LEN = .ok 40 ∧
    get_slice_as_le_u32 0 unrecognizedMhodB DATA_OBJECT_STRING_LENGTH_OFFSET
      DATA_OBJECT_STRING_LENGTH_LEN = .ok 8000 ∧
    DATA_OBJECT_LAST_OFFSET ≠ 40 ∧ DATA_OBJECT_LAST_OFFSET ≠ 8000 := by
  refine ⟨by decide, by decide, by decide, by decide, by decide, by decide⟩

/-- C6: decoding a TrackItem whose media type is Television leaves
MediaTypeContext unchanged (here at its initial UNKNOWN value), so the
context does not reflect the most recently decoded track item for the
Television media type. -/
theorem television_context_unchanged_counterexample :
    scanStep (mhitRecord 64 0 0) unknownDevice 0 (initState unknownDevice) =
      .ok (initState unknownDevice, TRACK_ITEM_LAST_OFFSET) ∧
    decode_track_media_type (((mhitRecord 64 0 0).drop
        (0 + TRACK_ITEM_TRACK_MEDIA_TYPE_OFFSET)).take TRACK_ITEM_TRACK_MEDIA_TYPE_LEN) =
      .Television ∧
    (initState unknownDevice).currMediaType = .UNKNOWN ∧
    (HandleableMediaType.UNKNOWN ≠ HandleableMediaType.Television) := by
  refine ⟨by decide, by decide, by decide, by decide⟩

/-- C8: in `podcastOrderingBuf` the first PodcastDescription arrives
while the Podcast builder's title is empty and emits nothing; after a
Title and a second PodcastDescription exactly one Podcast (title "T",
description "D2") is in the result set, and the open builder is a
fresh one pre-populated with the DeviceInfo.  Had the first
description emitted, two podcasts would be present, and the emitted
description would be "D1". -/
theorem podcast_completion_ordering :
    parseFull podcastOrderingBuf =
      .ok (unknownDevice,
        { songs := []
          podcasts := [{ defaultPodcastWith unknownDevice with
                         podcast_title := keyCodes "T"
                         podcast_description := keyCodes "D2" }]
          currSong := defaultSongWith unknownDevice
          currPodcast := defaultPodcastWith unknownDevice
          currMediaType := .Podcast }) := by
  decide

end ItunesDb

namespace ItunesDb

open itunesdb_constants

set_option maxHeartbeats 4000000
set_option maxRecDepth 1000000

/-! Evaluated forms of the marker constants and error-propagation
facts, used when rewriting `scanStep` symbolically. -/

theorem exceptBind_error {α β : Type} (e : ParseErr) (f : α → Except ParseErr β) :
    ((Except.error e : Except ParseErr α) >>= f) = .error e := rfl

theorem keyCodes_mhbd : keyCodes DATABASE_OBJECT_KEY = [109, 104, 98, 100] := rfl
theorem keyCodes_mhsd : keyCodes DATASET_KEY = [109, 104, 115, 100] := rfl
theorem keyCodes_mhlt : keyCodes TRACKLIST_KEY = [109, 104, 108, 116] := rfl
theorem keyCodes_mhit : keyCodes TRACK_ITEM_KEY = [109, 104, 105, 116] := rfl
theorem keyCodes_mhyp : keyCodes PLAYLIST_KEY = [109, 104, 121, 112] := rfl
theorem keyCodes_mhip : keyCodes PLAYLIST_ITEM_KEY = [109, 104, 105, 112] := rfl
theorem keyCodes_mhla : keyCodes ALBUM_LIST_KEY = [109, 104, 108, 97] := rfl
theorem keyCodes_mhod : keyCodes DATA_OBJECT_KEY = [109, 104, 111, 100] := rfl

/-- C2 (amended): at every cursor position of the main scan where the
4 bytes under the cursor match none of the eight known record markers,
the step leaves the state unchanged with in-branch increment 0, and
the loop's next comparison happens `DEFAULT_SUBSTRUCTURE_SIZE` (4)
bytes further — not 1 byte as the claim states. -/
theorem no_match_advances_substructure_size (buf : List Nat) (di : IpodDeviceInfo)
    (idx : Nat) (st : ScanState)
    (hb : idx + DEFAULT_SUBSTRUCTURE_SIZE ≤ buf.length)
    (hk : ∀ k ∈ knownSectionKeys, (buf.drop idx).take DEFAULT_SUBSTRUCTURE_SIZE ≠ k) :
    scanStep buf di idx st = .ok (st, 0) ∧
    (∀ bound fuel, idx < bound →
      scanLoop buf di bound (fuel + 1) idx st =
        scanLoop buf di bound fuel (idx + 0 + DEFAULT_SUBSTRUCTURE_SIZE) st) := by
  simp [knownSectionKeys] at hk
  obtain ⟨k1, k2, k3, k4, k5, k6, k7, k8⟩ := hk
  have hstep : scanStep buf di idx st = .ok (st, 0) := by
    unfold scanStep
    rw [slice_ok buf idx DEFAULT_SUBSTRUCTURE_SIZE hb]
    simp [Bind.bind, Except.bind, k1, k2, k3, k4, k5, k6, k7, k8, exceptPure_eq_ok]
  refine ⟨hstep, fun bound fuel hlt => ?_⟩
  rw [scanLoop, hstep]
  simp [hlt]

/-- Witness for C2 (amended): on an all-zero buffer nothing matches at
cursor 0 and the loop's next comparison position is 4. -/
theorem no_match_advances_substructure_size_witness :
    scanStep (zeros 8) unknownDevice 0 (initState unknownDevice) =
      .ok (initState unknownDevice, 0) ∧
    scanLoop (zeros 8) unknownDevice 4 2 0 (initState unknownDevice) =
      scanLoop (zeros 8) unknownDevice 4 1 (0 + 0 + DEFAULT_SUBSTRUCTURE_SIZE)
        (initState unknownDevice) :=
  ⟨(no_match_advances_substructure_size (zeros 8) unknownDevice 0 (initState unknownDevice)
      (by decide) (by decide)).1,
   (no_match_advances_substructure_size (zeros 8) unknownDevice 0 (initState unknownDevice)
      (by decide) (by decide)).2 4 1 (by decide)⟩

/-- C4 (amended): an mhod record whose 2-byte type code is not a
recognized string type is ignored (state unchanged) but still skipped,
by the fixed in-branch stride `DATA_OBJECT_LAST_OFFSET` — the same
constant for every mhod record, independent of any length field
declared inside the record. -/
theorem mhod_unrecognized_skipped_fixed_stride (buf : List Nat) (di : IpodDeviceInfo)
    (idx : Nat) (st : ScanState) (ty : Nat)
    (hb : idx + DEFAULT_SUBSTRUCTURE_SIZE ≤ buf.length)
    (hm : (buf.drop idx).take DEFAULT_SUBSTRUCTURE_SIZE = keyCodes DATA_OBJECT_KEY)
    (ht : get_slice_as_le_u32 idx buf DATA_OBJECT_TYPE_OFFSET DATA_OBJECT_TYPE_LEN = .ok ty)
    (hns : is_data_object_type_string ty = false) :
    scanStep buf di idx st = .ok (st, DATA_OBJECT_LAST_OFFSET) := by
  unfold scanStep
  rw [slice_ok buf idx DEFAULT_SUBSTRUCTURE_SIZE hb, hm]
  rw [exceptBind_ok]
  rw [if_neg (by decide), if_neg (by decide), if_neg (by decide), if_neg (by decide),
    if_neg (by decide), if_neg (by decide), if_neg (by decide), if_pos rfl]
  rw [ht, exceptBind_ok]
  simp [hns, exceptPure_eq_ok]

/-- Witness for C4 (amended): the type-99 record is skipped with the
fixed stride. -/
theorem mhod_unrecognized_skipped_fixed_stride_witness :
    scanStep unrecognizedMhodA unknownDevice 0 (initState unknownDevice) =
      .ok (initState unknownDevice, DATA_OBJECT_LAST_OFFSET) :=
  mhod_unrecognized_skipped_fixed_stride unrecognizedMhodA unknownDevice 0
    (initState unknownDevice) 99 (by decide) (by decide) (by decide) (by decide)

/-- Helper for C5: the scan step on a SongLike TrackItem whose
file-size field is zero aborts with InvalidTrack, for any state. -/
theorem zero_size_songlike_step (buf : List Nat) (di : IpodDeviceInfo) (st : ScanState)
    (hlen : TRACK_ITEM_TRACK_FILE_SIZE_BYTES_OFFSET + TRACK_ITEM_TRACK_FILE_SIZE_BYTES_LEN ≤
      buf.length)
    (hm : buf.take DEFAULT_SUBSTRUCTURE_SIZE = keyCodes TRACK_ITEM_KEY)
    (hmt : decode_track_media_type
        ((buf.drop TRACK_ITEM_TRACK_MEDIA_TYPE_OFFSET).take TRACK_ITEM_TRACK_MEDIA_TYPE_LEN) =
      .SongLike)
    (hsz : get_slice_as_le_u32 0 buf TRACK_ITEM_TRACK_FILE_SIZE_BYTES_OFFSET
        TRACK_ITEM_TRACK_FILE_SIZE_BYTES_LEN = .ok 0) :
    scanStep buf di 0 st = .error .invalidTrack := by
  have hlen' : 76 ≤ buf.length := by
    simpa [TRACK_ITEM_TRACK_FILE_SIZE_BYTES_OFFSET,
      TRACK_ITEM_TRACK_FILE_SIZE_BYTES_LEN] using hlen
  have hm' : (buf.drop 0).take 4 = [109, 104, 105, 116] := by
    simpa [DEFAULT_SUBSTRUCTURE_SIZE, keyCodes_mhit] using hm
  have hmt' : decode_track_media_type ((buf.drop (0 + 28)).take 4) = .SongLike := by
    simpa [TRACK_ITEM_TRACK_MEDIA_TYPE_OFFSET, TRACK_ITEM_TRACK_MEDIA_TYPE_LEN] using hmt
  have hsz' : get_slice_as_le_u32 0 buf 72 4 = .ok 0 := by
    simpa [TRACK_ITEM_TRACK_FILE_SIZE_BYTES_OFFSET,
      TRACK_ITEM_TRACK_FILE_SIZE_BYTES_LEN] using hsz
  have r1 := get_slice_as_le_u32_ok 0 buf 8 4 (by omega)
  have r2 := get_slice_as_le_u32_ok 0 buf 12 4 (by omega)
  have r3 := get_slice_as_le_u32_ok 0 buf 16 4 (by omega)
  have r4 := get_slice_as_le_u32_ok 0 buf 20 4 (by omega)
  have r5 := slice_ok buf (0 + 24) 4 (by omega)
  have r6 := slice_ok buf (0 + 28) 4 (by omega)
  have r7 := get_slice_as_le_u32_ok 0 buf 32 4 (by omega)
  have r8 := get_slice_as_le_u32_ok 0 buf 44 4 (by omega)
  have r9 := get_slice_as_le_u32_ok 0 buf 48 4 (by omega)
  have r10 := slice_ok buf (0 + 52) 4 (by omega)
  have r11 := get_slice_as_le_u32_ok 0 buf 56 4 (by omega)
  have r12 := get_slice_as_le_u32_ok 0 buf 60 4 (by omega)
  have r13 := get_slice_as_le_u32_ok 0 buf 64 4 (by omega)
  have r14 := get_slice_as_le_u32_ok 0 buf 68 4 (by omega)
  have rslice := slice_ok buf 0 4 (by omega)
  unfold scanStep
  simp only [DEFAULT_SUBSTRUCTURE_SIZE, TRACK_ITEM_TRACK_NUMBER_OFFSET,
    TRACK_ITEM_TRACK_NUMBER_LEN, TRACK_ITEM_NUM_TRACKS_IN_ALBUM_OFFSET,
    TRACK_ITEM_NUM_TRACKS_IN_ALBUM_LEN, TRACK_ITEM_TRACK_TOTAL_NUM_DISCS_OFFSET,
    TRACK_ITEM_TRACK_TOTAL_NUM_DISCS_LEN, TRACK_ITEM_TRACK_DISC_NUMBER_OFFSET,
    TRACK_ITEM_TRACK_DISC_NUMBER_LEN, TRACK_ITEM_TRACK_FILETYPE_OFFSET,
    TRACK_ITEM_TRACK_FILETYPE_LEN, TRACK_ITEM_TRACK_MEDIA_TYPE_OFFSET,
    TRACK_ITEM_TRACK_MEDIA_TYPE_LEN, TRACK_ITEM_TRACK_MOVIE_FLAG_SETTING_OFFSET,
    TRACK_ITEM_TRACK_MOVIE_FLAG_SETTING_LEN, TRACK_ITEM_ADVANCED_TRACK_TYPE_OFFSET,
    TRACK_ITEM_ADVANCED_TRACK_TYPE_LEN, TRACK_ITEM_TRACK_USER_ID_OFFSET,
    TRACK_ITEM_TRACK_USER_ID_LEN, TRACK_ITEM_TRACK_BITRATE_SETTING_OFFSET,
    TRACK_ITEM_TRACK_BITRATE_SETTING_LEN, TRACK_ITEM_TRACK_BITRATE_OFFSET,
    TRACK_ITEM_TRACK_BITRATE_LEN, TRACK_ITEM_TRACK_SAMPLE_RATE_OFFSET,
    TRACK_ITEM_TRACK_SAMPLE_RATE_LEN, TRACK_ITEM_TRACK_VOLUME_OFFSET,
    TRACK_ITEM_TRACK_VOLUME_LEN, TRACK_ITEM_TRACK_BPM_OFFSET, TRACK_ITEM_TRACK_BPM_LEN,
    TRACK_ITEM_TRACK_FILE_SIZE_BYTES_OFFSET, TRACK_ITEM_TRACK_FILE_SIZE_BYTES_LEN,
    keyCodes_mhbd, keyCodes_mhsd, keyCodes_mhlt, keyCodes_mhit, keyCodes_mhyp,
    keyCodes_mhip, keyCodes_mhla, keyCodes_mhod,
    rslice, hm', hmt', hsz', r1, r2, r3, r4, r5, r6, r7, r8, r9, r10, r11, r12, r13, r14,
    exceptBind_ok, exceptPure_eq_ok, ite_self, Nat.zero_lt_one, if_true, if_false,
    List.cons.injEq, reduceCtorEq, Nat.reduceEqDiff, and_false, false_and, and_true,
    true_and, and_self]

/-- C5: whenever the parse's pre-passes succeed and the buffer opens
with a TrackItem record whose media type decodes to SongLike and whose
file-size field reads zero (with the record's pre-check fields in
bounds), the whole parse aborts with the InvalidTrack error: no Song
or Podcast sequence is produced. -/
theorem zero_size_songlike_track_aborts (buf : List Nat) (di : IpodDeviceInfo)
    (hdev : extract_device_info buf = .ok di)
    (hlen : TRACK_ITEM_TRACK_FILE_SIZE_BYTES_OFFSET + TRACK_ITEM_TRACK_FILE_SIZE_BYTES_LEN ≤
      buf.length)
    (hm : buf.take DEFAULT_SUBSTRUCTURE_SIZE = keyCodes TRACK_ITEM_KEY)
    (hmt : decode_track_media_type
        ((buf.drop TRACK_ITEM_TRACK_MEDIA_TYPE_OFFSET).take TRACK_ITEM_TRACK_MEDIA_TYPE_LEN) =
      .SongLike)
    (hsz : get_slice_as_le_u32 0 buf TRACK_ITEM_TRACK_FILE_SIZE_BYTES_OFFSET
        TRACK_ITEM_TRACK_FILE_SIZE_BYTES_LEN = .ok 0) :
    parse_itunesdb_file buf = .error .invalidTrack := by
  have hlen' : 76 ≤ buf.length := by
    simpa [TRACK_ITEM_TRACK_FILE_SIZE_BYTES_OFFSET,
      TRACK_ITEM_TRACK_FILE_SIZE_BYTES_LEN] using hlen
  have hstep := zero_size_songlike_step buf di (initState di) hlen hm hmt hsz
  obtain ⟨k, hk⟩ : ∃ k, buf.length - DEFAULT_SUBSTRUCTURE_SIZE = k + 1 :=
    ⟨buf.length - DEFAULT_SUBSTRUCTURE_SIZE - 1, by simp [DEFAULT_SUBSTRUCTURE_SIZE]; omega⟩
  unfold parse_itunesdb_file parseFull
  rw [hdev]
  rw [exceptBind_ok]
  rw [if_neg (by simp only [DEFAULT_SUBSTRUCTURE_SIZE]; omega)]
  simp only [hk, scanLoop]
  rw [if_pos (by omega)]
  rw [hstep]
  simp [Except.map, exceptBind_error]

/-- Witness for C5: a single SongLike mhit record with file size zero
aborts the parse with InvalidTrack. -/
theorem zero_size_songlike_track_aborts_witness :
    parse_itunesdb_file (mhitRecord 1 0 0) = .error .invalidTrack :=
  zero_size_songlike_track_aborts (mhitRecord 1 0 0) unknownDevice (by decide) (by decide)
    (by decide) (by decide) (by decide)

end ItunesDb

namespace ItunesDb

open itunesdb_constants

set_option maxHeartbeats 4000000
set_option maxRecDepth 1000000

/-- C6 (amended): a decoded TrackItem's media-type code is mapped to
one of SongLike / Television / Podcast / Unknown, but the result is
stored into MediaTypeContext only when it is SongLike or Podcast; a
Television or Unknown track item leaves the context unchanged, so the
context reflects the most recently decoded SongLike-or-Podcast track
item, not every track item as the claim states. -/
theorem media_type_context_update (buf : List Nat) (di : IpodDeviceInfo) (idx : Nat)
    (st st' : ScanState) (extra : Nat) (mt : HandleableMediaType)
    (hlen : idx + TRACK_ITEM_LAST_OFFSET ≤ buf.length)
    (hm : (buf.drop idx).take DEFAULT_SUBSTRUCTURE_SIZE = keyCodes TRACK_ITEM_KEY)
    (hmt : decode_track_media_type ((buf.drop (idx + TRACK_ITEM_TRACK_MEDIA_TYPE_OFFSET)).take
        TRACK_ITEM_TRACK_MEDIA_TYPE_LEN) = mt)
    (h : scanStep buf di idx st = .ok (st', extra)) :
    st'.currMediaType = if mt = .SongLike ∨ mt = .Podcast then mt else st.currMediaType := by
  have hlen' : idx + 172 ≤ buf.length := by
    simpa [TRACK_ITEM_LAST_OFFSET] using hlen
  have hm' : (buf.drop idx).take 4 = [109, 104, 105, 116] := by
    simpa [DEFAULT_SUBSTRUCTURE_SIZE, keyCodes_mhit] using hm
  have hmt' : decode_track_media_type ((buf.drop (idx + 28)).take 4) = mt := by
    simpa [TRACK_ITEM_TRACK_MEDIA_TYPE_OFFSET, TRACK_ITEM_TRACK_MEDIA_TYPE_LEN] using hmt
  have r1 := get_slice_as_le_u32_ok idx buf 8 4 (by omega)
  have r2 := get_slice_as_le_u32_ok idx buf 12 4 (by omega)
  have r3 := get_slice_as_le_u32_ok idx buf 16 4 (by omega)
  have r4 := get_slice_as_le_u32_ok idx buf 20 4 (by omega)
  have r5 := slice_ok buf (idx + 24) 4 (by omega)
  have r6 := slice_ok buf (idx + 28) 4 (by omega)
  have r7 := get_slice_as_le_u32_ok idx buf 32 4 (by omega)
  have rSeason := get_slice_as_le_u32_ok idx buf 36 4 (by omega)
  have rEpisode := get_slice_as_le_u32_ok idx buf 40 4 (by omega)
  have r8 := get_slice_as_le_u32_ok idx buf 44 4 (by omega)
  have r9 := get_slice_as_le_u32_ok idx buf 48 4 (by omega)
  have r10 := slice_ok buf (idx + 52) 4 (by omega)
  have r11 := get_slice_as_le_u32_ok idx buf 56 4 (by omega)
  have r12 := get_slice_as_le_u32_ok idx buf 60 4 (by omega)
  have r13 := get_slice_as_le_u32_ok idx buf 64 4 (by omega)
  have r14 := get_slice_as_le_u32_ok idx buf 68 4 (by omega)
  have r15 := get_slice_as_le_u32_ok idx buf 72 4 (by omega)
  have r16 := get_slice_as_le_u32_ok idx buf 76 4 (by omega)
  have r17 := get_slice_as_le_u32_ok idx buf 80 4 (by omega)
  have r18 := get_slice_as_le_u32_ok idx buf 84 4 (by omega)
  have r19 := get_slice_as_le_u32_ok idx buf 88 4 (by omega)
  have r20 := get_slice_as_le_u32_ok idx buf 92 4 (by omega)
  have r21 := get_slice_as_mac_timestamp_ok idx buf 96 4 (by omega)
  have r22 := get_slice_as_mac_timestamp_ok idx buf 100 4 (by omega)
  have r23 := slice_ok buf (idx + 104) 1 (by omega)
  have r24 := slice_ok buf (idx + 108) 1 (by omega)
  have r25 := slice_ok buf (idx + 112) 1 (by omega)
  have r26 := get_slice_as_le_u32_ok idx buf 116 4 (by omega)
  have r27 := get_slice_as_le_u32_ok idx buf 120 4 (by omega)
  have r28 := get_slice_as_le_u32_ok idx buf 124 4 (by omega)
  have r29 := get_slice_as_le_u32_ok idx buf 128 4 (by omega)
  have r30 := get_slice_as_le_u32_ok idx buf 132 4 (by omega)
  have r31 := get_slice_as_le_u64_ok idx buf 136 8 (by omega)
  have r32 := get_slice_as_le_u32_ok idx buf 144 4 (by omega)
  have r33 := slice_ok buf (idx + 148) 1 (by omega)
  have r34 := get_slice_as_le_u32_ok idx buf 152 4 (by omega)
  have r35 := get_slice_as_le_u32_ok idx buf 156 4 (by omega)
  have r36 := get_slice_as_le_u32_ok idx buf 160 4 (by omega)
  have r37 := get_slice_as_mac_timestamp_ok idx buf 164 4 (by omega)
  have r38 := get_slice_as_mac_timestamp_ok idx buf 168 4 (by omega)
  have rslice := slice_ok buf idx 4 (by omega)
  unfold scanStep at h
  simp only [DEFAULT_SUBSTRUCTURE_SIZE, TRACK_ITEM_TRACK_NUMBER_OFFSET,
    TRACK_ITEM_TRACK_NUMBER_LEN, TRACK_ITEM_NUM_TRACKS_IN_ALBUM_OFFSET,
    TRACK_ITEM_NUM_TRACKS_IN_ALBUM_LEN, TRACK_ITEM_TRACK_TOTAL_NUM_DISCS_OFFSET,
    TRACK_ITEM_TRACK_TOTAL_NUM_DISCS_LEN, TRACK_ITEM_TRACK_DISC_NUMBER_OFFSET,
    TRACK_ITEM_TRACK_DISC_NUMBER_LEN, TRACK_ITEM_TRACK_FILETYPE_OFFSET,
    TRACK_ITEM_TRACK_FILETYPE_LEN, TRACK_ITEM_TRACK_MEDIA_TYPE_OFFSET,
    TRACK_ITEM_TRACK_MEDIA_TYPE_LEN, TRACK_ITEM_TRACK_MOVIE_FLAG_SETTING_OFFSET,
    TRACK_ITEM_TRACK_MOVIE_FLAG_SETTING_LEN, TRACK_ITEM_TRACK_SEASON_NUMBER_OFFSET,
    TRACK_ITEM_TRACK_SEASON_NUMBER_LEN, TRACK_ITEM_TRACK_EPISODE_NUMBER_OFFSET,
    TRACK_ITEM_TRACK_EPISODE_NUMBER_LEN, TRACK_ITEM_ADVANCED_TRACK_TYPE_OFFSET,
    TRACK_ITEM_ADVANCED_TRACK_TYPE_LEN, TRACK_ITEM_TRACK_USER_ID_OFFSET,
    TRACK_ITEM_TRACK_USER_ID_LEN, TRACK_ITEM_TRACK_BITRATE_SETTING_OFFSET,
    TRACK_ITEM_TRACK_BITRATE_SETTING_LEN, TRACK_ITEM_TRACK_BITRATE_OFFSET,
    TRACK_ITEM_TRACK_BITRATE_LEN, TRACK_ITEM_TRACK_SAMPLE_RATE_OFFSET,
    TRACK_ITEM_TRACK_SAMPLE_RATE_LEN, TRACK_ITEM_TRACK_VOLUME_OFFSET,
    TRACK_ITEM_TRACK_VOLUME_LEN, TRACK_ITEM_TRACK_BPM_OFFSET, TRACK_ITEM_TRACK_BPM_LEN,
    TRACK_ITEM_TRACK_FILE_SIZE_BYTES_OFFSET, TRACK_ITEM_TRACK_FILE_SIZE_BYTES_LEN,
    TRACK_ITEM_TRACK_LENGTH_MILLISECONDS_OFFSET, TRACK_ITEM_TRACK_LENGTH_MILLISECONDS_LEN,
    TRACK_ITEM_TRACK_START_TIME_OFFSET, TRACK_ITEM_TRACK_START_TIME_LEN,
    TRACK_ITEM_TRACK_STOP_TIME_OFFSET, TRACK_ITEM_TRACK_STOP_TIME_LEN,
    TRACK_ITEM_TRACK_PLAY_COUNT_OFFSET, TRACK_ITEM_TRACK_PLAY_COUNT_LEN,
    TRACK_ITEM_TRACK_SKIPPED_COUNT_OFFSET, TRACK_ITEM_TRACK_SKIPPED_COUNT_LEN,
    TRACK_ITEM_TRACK_LAST_PLAYED_TIMESTAMP_OFFSET, TRACK_ITEM_TRACK_LAST_PLAYED_TIMESTAMP_LEN,
    TRACK_ITEM_TRACK_LAST_SKIPPED_TIMESTAMP_OFFSET,
    TRACK_ITEM_TRACK_LAST_SKIPPED_TIMESTAMP_LEN,
    TRACK_ITEM_TRACK_SKIP_WHEN_SHUFFLING_SETTING_OFFSET,
    TRACK_ITEM_TRACK_SKIP_WHEN_SHUFFLING_SETTING_LEN, TRACK_ITEM_IS_COMPILATION_SETTING_OFFSET,
    TRACK_ITEM_IS_COMPILATION_SETTING_LEN, TRACK_ITEM_TRACK_LYRICS_AVAILABLE_SETTING_OFFSET,
    TRACK_ITEM_TRACK_LYRICS_AVAILABLE_SETTING_LEN, TRACK_ITEM_TRACK_RATING_OFFSET,
    TRACK_ITEM_TRACK_RATING_LEN, TRACK_ITEM_TRACK_PREVIOUS_RATING_OFFSET,
    TRACK_ITEM_TRACK_PREVIOUS_RATING_LEN, TRACK_ITEM_TRACK_GAPLESS_PLAYBACK_SETTING_OFFSET,
    TRACK_ITEM_TRACK_GAPLESS_PLAYBACK_SETTING_LEN,
    TRACK_ITEM_TRACK_BEGINNING_SILENCE_SAMPLE_COUNT_OFFSET,
    TRACK_ITEM_TRACK_BEGINNING_SILENCE_SAMPLE_COUNT_LEN,
    TRACK_ITEM_TRACK_ENDING_SILENCE_SAMPLE_COUNT_OFFSET,
    TRACK_ITEM_TRACK_ENDING_SILENCE_SAMPLE_COUNT_LEN, TRACK_ITEM_TRACK_NUM_SAMPLES_OFFSET,
    TRACK_ITEM_TRACK_NUM_SAMPLES_LEN, TRACK_ITEM_TRACK_CROSSFADING_SETTING_OFFSET,
    TRACK_ITEM_TRACK_CROSSFADING_SETTING_LEN, TRACK_ITEM_TRACK_HAS_ARTWORK_SETTING_OFFSET,
    TRACK_ITEM_TRACK_HAS_ARTWORK_SETTING_LEN, TRACK_ITEM_TRACK_ARTWORK_SIZE_BYTES_OFFSET,
    TRACK_ITEM_TRACK_ARTWORK_SIZE_BYTES_LEN, TRACK_ITEM_TRACK_YEAR_PUBLISHED_OFFSET,
    TRACK_ITEM_TRACK_YEAR_PUBLISHED_LEN, TRACK_ITEM_TRACK_ADDED_TIMESTAMP_OFFSET,
    TRACK_ITEM_TRACK_ADDED_TIMESTAMP_LEN, TRACK_ITEM_TRACK_MODIFIED_TIME_OFFSET,
    TRACK_ITEM_TRACK_MODIFIED_TIME_LEN, TRACK_ITEM_TRACK_RELEASED_TIMESTAMP_OFFSET,
    TRACK_ITEM_TRACK_RELEASED_TIMESTAMP_LEN, TRACK_ITEM_LAST_OFFSET,
    keyCodes_mhbd, keyCodes_mhsd, keyCodes_mhlt, keyCodes_mhit, keyCodes_mhyp,
    keyCodes_mhip, keyCodes_mhla, keyCodes_mhod,
    rslice, hm', hmt', r1, r2, r3, r4, r5, r6, r7, rSeason, rEpisode, r8, r9, r10, r11,
    r12, r13, r14, r15, r16, r17, r18, r19, r20, r21, r22, r23, r24, r25, r26, r27, r28,
    r29, r30, r31, r32, r33, r34, r35, r36, r37, r38,
    exceptBind_ok, exceptPure_eq_ok, ite_self,
    List.cons.injEq, reduceCtorEq, Nat.reduceEqDiff, and_false, false_and, and_true,
    true_and, and_self] at h
  cases mt with
  | Television =>
    simp only [reduceCtorEq, if_false, if_true, ite_false, ite_true, Except.ok.injEq,
      Prod.mk.injEq] at h ⊢
    obtain ⟨h1, -⟩ := h
    subst h1
    split <;> simp
  | SongLike =>
    simp only [reduceCtorEq, if_false, if_true, ite_false, ite_true, Except.ok.injEq,
      Prod.mk.injEq] at h ⊢
    split at h
    · simp at h
    · simp only [Except.ok.injEq, Prod.mk.injEq] at h
      obtain ⟨h1, -⟩ := h
      subst h1
      simp
  | Podcast =>
    simp only [reduceCtorEq, if_false, if_true, ite_false, ite_true, Except.ok.injEq,
      Prod.mk.injEq] at h ⊢
    obtain ⟨h1, -⟩ := h
    subst h1
    simp
  | UNKNOWN =>
    simp only [reduceCtorEq, if_false, if_true, ite_false, ite_true, Except.ok.injEq,
      Prod.mk.injEq] at h ⊢
    obtain ⟨h1, -⟩ := h
    subst h1
    split <;> simp

/-- Witness for C6 (amended): a Podcast track item does update the
context. -/
theorem media_type_context_update_witness :
    ({ initState unknownDevice with currMediaType := .Podcast } : ScanState).currMediaType =
      (if (HandleableMediaType.Podcast = .SongLike ∨ HandleableMediaType.Podcast = .Podcast)
        then HandleableMediaType.Podcast else (initState unknownDevice).currMediaType) :=
  media_type_context_update (mhitRecord 4 0 0) unknownDevice 0 (initState unknownDevice)
    { initState unknownDevice with currMediaType := .Podcast } TRACK_ITEM_LAST_OFFSET .Podcast
    (by decide) (by decide) (by decide) (by decide)

end ItunesDb

namespace ItunesDb

open itunesdb_constants

set_option maxHeartbeats 4000000
set_option maxRecDepth 1000000

/-- Helper for C7: a successful run of the capacity pre-pass loop
computes exactly the accumulator plus the spec-side file-size sum over
the remaining positions. -/
theorem capacityLoop_ok (buf : List Nat) :
    ∀ (remaining idx total T : Nat),
      capacityLoop buf remaining idx total = .ok T →
      T = total + trackSizeSumFrom buf remaining idx := by
  intro remaining
  induction remaining with
  | zero =>
    intro idx total T h
    simp [capacityLoop] at h
    simp [trackSizeSumFrom, h]
  | succ n ih =>
    intro idx total T h
    rw [capacityLoop] at h
    by_cases hm : (buf.drop idx).take DEFAULT_SUBSTRUCTURE_SIZE = keyCodes TRACK_ITEM_KEY
    · rw [if_pos hm] at h
      cases hr : get_slice_as_le_u32 idx buf TRACK_ITEM_TRACK_FILE_SIZE_BYTES_OFFSET
          TRACK_ITEM_TRACK_FILE_SIZE_BYTES_LEN with
      | error e => simp only [hr, reduceCtorEq] at h
      | ok sz =>
        simp only [hr] at h
        have hrec := ih (idx + 1) (total + sz) T h
        have hv := get_slice_as_le_u32_ok_val hr
        rw [trackSizeSumFrom, if_pos hm, ← hv]
        omega
    · rw [if_neg hm] at h
      rw [trackSizeSumFrom, if_neg hm]
      have hrec := ih (idx + 1) total T h
      omega

/-- Helper for C7: the source's capacity match table agrees with the
spec-side first-canonical-at-least snapping for every gigabyte
count. -/
theorem capacityMatchTable_eq_snap (gb : Nat) :
    capacityMatchTable gb = snapToCanonical gb := by
  unfold capacityMatchTable snapToCanonical canonicalCapacities
  by_cases h1 : gb ≤ 2 <;> by_cases h2 : gb ≤ 4 <;> by_cases h3 : gb ≤ 8 <;>
    by_cases h4 : gb ≤ 16 <;> by_cases h5 : gb ≤ 32 <;> by_cases h6 : gb ≤ 64 <;>
    simp [List.find?, h1, h2, h3, h4, h5, h6]

/-- C7: whenever the capacity estimation succeeds, its result is the
sum of the file-size fields of all TrackItem records found in the
buffer, converted to gigabytes at 1 GB = 1,000,000,000 bytes and
rounded up, then snapped to the first canonical capacity in
{2,4,8,16,32,64} at least that large (128 above 64).  The source's
`(total as f64 / 1e9).ceil()` is modelled as the exact ceiling
division, with which it coincides for all sums below 2^53. -/
theorem estimated_capacity_eq_spec (buf : List Nat) (cap : Nat)
    (h : estimate_device_capacity buf = .ok cap) :
    cap = snapToCanonical ((trackSizeSum buf + 999999999) / 1000000000) := by
  unfold estimate_device_capacity at h
  split at h
  · simp at h
  · cases hc : capacityLoop buf (buf.length - DEFAULT_SUBSTRUCTURE_SIZE) 0 0 with
    | error e => simp only [hc, reduceCtorEq] at h
    | ok total =>
      simp only [hc, Except.ok.injEq] at h
      have ht := capacityLoop_ok buf _ 0 0 total hc
      rw [← h, capacityMatchTable_eq_snap]
      unfold trackSizeSum
      rw [ht, Nat.zero_add]

/-- Witness for C7: three TrackItems summing to exactly 4.0 GB snap to
canonical capacity 4, and a 4.1 GB sum snaps to 8. -/
theorem estimated_capacity_eq_spec_witness :
    estimate_device_capacity capacityBuf4 = .ok 4 ∧
    (4 : Nat) = snapToCanonical ((trackSizeSum capacityBuf4 + 999999999) / 1000000000) ∧
    estimate_device_capacity capacityBuf41 = .ok 8 ∧
    (8 : Nat) = snapToCanonical ((trackSizeSum capacityBuf41 + 999999999) / 1000000000) :=
  ⟨by decide, estimated_capacity_eq_spec capacityBuf4 4 (by decide), by decide,
   estimated_capacity_eq_spec capacityBuf41 8 (by decide)⟩

/-- C9: a PodcastDescription data object decoded while MediaTypeContext
is not Podcast does not store the description into the open Podcast
builder, yet the builder is still pushed to the Podcast result set
(unchanged) because its title is non-empty, and a fresh builder
pre-populated with the DeviceInfo is opened: the push-on-description
trigger is independent of the current MediaTypeContext. -/
theorem podcast_description_push_independent_of_context (buf : List Nat)
    (di : IpodDeviceInfo) (idx : Nat) (st : ScanState) (s : List Nat)
    (hb : idx + DEFAULT_SUBSTRUCTURE_SIZE ≤ buf.length)
    (hm : (buf.drop idx).take DEFAULT_SUBSTRUCTURE_SIZE = keyCodes DATA_OBJECT_KEY)
    (ht : get_slice_as_le_u32 idx buf DATA_OBJECT_TYPE_OFFSET DATA_OBJECT_TYPE_LEN =
      .ok HandleableDataObjectType.PodcastDescription)
    (hs : readMhodString buf idx = .ok s)
    (hc : st.currMediaType ≠ .Podcast)
    (hp : st.currPodcast.podcast_title ≠ []) :
    scanStep buf di idx st =
      .ok ({ st with
             podcasts := st.podcasts ++ [st.currPodcast]
             currPodcast := defaultPodcastWith di }, DATA_OBJECT_LAST_OFFSET) := by
  unfold scanStep
  rw [slice_ok buf idx DEFAULT_SUBSTRUCTURE_SIZE hb, hm]
  rw [exceptBind_ok]
  rw [if_neg (by decide), if_neg (by decide), if_neg (by decide), if_neg (by decide),
    if_neg (by decide), if_neg (by decide), if_neg (by decide), if_pos rfl]
  rw [ht, exceptBind_ok]
  rw [if_pos (by decide)]
  rw [hs, exceptBind_ok]
  unfold applyDataObjectString
  rw [if_neg (by decide), if_neg (by decide), if_neg (by decide), if_neg (by decide),
    if_neg (by decide), if_neg (by decide), if_neg (by decide), if_neg (by decide),
    if_pos rfl]
  rw [if_neg hc]
  have hp' : st.currPodcast.podcast_title.isEmpty = false := by
    cases h' : st.currPodcast.podcast_title with
    | nil => exact absurd h' hp
    | cons a l => simp
  simp [hp', exceptPure_eq_ok]

/-- Witness for C9: a PodcastDescription arriving in SongLike context
still pushes the titled Podcast builder, unchanged. -/
theorem podcast_description_push_independent_of_context_witness :
    scanStep descMhodBuf unknownDevice 0 songContextPodcastState =
      .ok ({ songContextPodcastState with
             podcasts := songContextPodcastState.podcasts ++
               [songContextPodcastState.currPodcast]
             currPodcast := defaultPodcastWith unknownDevice }, DATA_OBJECT_LAST_OFFSET) :=
  podcast_description_push_independent_of_context descMhodBuf unknownDevice 0
    songContextPodcastState (keyCodes "D") (by decide) (by decide) (by decide) (by decide)
    (by decide) (by decide)

/-- C10: when a FileLocation data object arrives, the open Song
builder first receives the filename; if it then fails the validity
threshold it is neither emitted nor reset — the state keeps the same
result sets and the same builder with only the filename changed, so
every other field carries over (first conjunct) — and when the builder
does meet the threshold it is pushed as-is and only then replaced by a
fresh device-info-populated builder (second conjunct): the
single-open-builder state is reset only on a successful push. -/
theorem invalid_filelocation_keeps_builder :
    (∀ (buf : List Nat) (di : IpodDeviceInfo) (idx : Nat) (st : ScanState) (s : List Nat),
      idx + DEFAULT_SUBSTRUCTURE_SIZE ≤ buf.length →
      (buf.drop idx).take DEFAULT_SUBSTRUCTURE_SIZE = keyCodes DATA_OBJECT_KEY →
      get_slice_as_le_u32 idx buf DATA_OBJECT_TYPE_OFFSET DATA_OBJECT_TYPE_LEN =
        .ok HandleableDataObjectType.FileLocation →
      readMhodString buf idx = .ok s →
      (st.currSong.set_song_filename s).are_enough_fields_valid = false →
      scanStep buf di idx st =
        .ok ({ st with currSong := st.currSong.set_song_filename s },
          DATA_OBJECT_LAST_OFFSET)) ∧
    (∀ (buf : List Nat) (di : IpodDeviceInfo) (idx : Nat) (st : ScanState) (s : List Nat),
      idx + DEFAULT_SUBSTRUCTURE_SIZE ≤ buf.length →
      (buf.drop idx).take DEFAULT_SUBSTRUCTURE_SIZE = keyCodes DATA_OBJECT_KEY →
      get_slice_as_le_u32 idx buf DATA_OBJECT_TYPE_OFFSET DATA_OBJECT_TYPE_LEN =
        .ok HandleableDataObjectType.FileLocation →
      readMhodString buf idx = .ok s →
      (st.currSong.set_song_filename s).are_enough_fields_valid = true →
      scanStep buf di idx st =
        .ok ({ st with
               songs := st.songs ++ [st.currSong.set_song_filename s]
               currSong := defaultSongWith di }, DATA_OBJECT_LAST_OFFSET)) := by
  constructor <;>
  · intro buf di idx st s hb hm ht hs hv
    unfold scanStep
    rw [slice_ok buf idx DEFAULT_SUBSTRUCTURE_SIZE hb, hm]
    rw [exceptBind_ok]
    rw [if_neg (by decide), if_neg (by decide), if_neg (by decide), if_neg (by decide),
      if_neg (by decide), if_neg (by decide), if_neg (by decide), if_pos rfl]
    rw [ht, exceptBind_ok]
    rw [if_pos (by decide)]
    rw [hs, exceptBind_ok]
    unfold applyDataObjectString
    rw [if_neg (by decide), if_neg (by decide), if_neg (by decide), if_neg (by decide),
      if_neg (by decide), if_neg (by decide), if_pos rfl]
    simp [hv, exceptPure_eq_ok]

/-- Witness for C10: a FileLocation on a title-less builder keeps the
artist and does not push; the same record on the titled builder pushes
it with the artist intact and opens a fresh builder. -/
theorem invalid_filelocation_keeps_builder_witness :
    scanStep fileLocationMhodBuf unknownDevice 0 artistOnlySongState =
      .ok ({ artistOnlySongState with
             currSong := artistOnlySongState.currSong.set_song_filename
               (keyCodes "/x.mp3") }, DATA_OBJECT_LAST_OFFSET) ∧
    scanStep fileLocationMhodBuf unknownDevice 0 titledSongState =
      .ok ({ titledSongState with
             songs := titledSongState.songs ++
               [titledSongState.currSong.set_song_filename (keyCodes "/x.mp3")]
             currSong := defaultSongWith unknownDevice }, DATA_OBJECT_LAST_OFFSET) :=
  ⟨invalid_filelocation_keeps_builder.1 fileLocationMhodBuf unknownDevice 0
      artistOnlySongState (keyCodes "/x.mp3") (by decide) (by decide) (by decide) (by decide)
      (by decide),
   invalid_filelocation_keeps_builder.2 fileLocationMhodBuf unknownDevice 0
      titledSongState (keyCodes "/x.mp3") (by decide) (by decide) (by decide) (by decide)
      (by decide)⟩

end ItunesDb
